import Mathlib

/-!
# SimpleRenderEngine: `sre::RenderPass` (src/sre/RenderPass.cpp)

A shallow embedding of the render pass life cycle and of its bound-state cache.

* Object identity (the C++ pointers `Mesh*`, `Material*`, `Shader*`, `RenderPass*`,
  `RenderStats*`) is a natural number, the address of the object.  A null pointer is `none`.
* The process is a `World`: the static `RenderPass::instance`, the pass objects and the
  statistics objects by address, the function-local statics of `drawLines`, and the trace of
  every side effect in program order (device calls, overlay calls, collaborator calls,
  counter increments, cache writes and writes of `instance`).
* A failed `assert` aborts the process: an operation returns `Except.error w`, where `w` is the
  world at the failed assertion, and `Except.ok w` otherwise.
* `float` values are exact rationals; the `int` counters of the statistics are unbounded
  integers; the cast `(int)` of a container size wraps to 32 bits (`intOfSize`).
* `glm` matrices are `Matrix (Fin n) (Fin n) ℚ` indexed (row, column); the product, the
  transpose, the `mat3` cast and the inverse are the mathematical ones.
-/

namespace sre

/-! ## glm -/

abbrev mat4 := Matrix (Fin 4) (Fin 4) ℚ

abbrev mat3 := Matrix (Fin 3) (Fin 3) ℚ

/-- The glm vector of four floats (`r g b a`, also read as `x y z w`). -/
structure vec4 where
  r : ℚ
  g : ℚ
  b : ℚ
  a : ℚ

/-- The glm vector of three floats. -/
structure vec3 where
  x : ℚ
  y : ℚ
  z : ℚ

/-- The cast `(glm::mat3) m` of a 4x4 matrix: its upper-left 3x3 block. -/
def toMat3 (m : mat4) : mat3 :=
  !![m 0 0, m 0 1, m 0 2;
     m 1 0, m 1 1, m 1 2;
     m 2 0, m 2 1, m 2 2]

/-- The determinant computed by `glm::inverse` for a 3x3 matrix. -/
def determinant (m : mat3) : ℚ :=
  m 0 0 * (m 1 1 * m 2 2 - m 1 2 * m 2 1)
    - m 0 1 * (m 1 0 * m 2 2 - m 1 2 * m 2 0)
    + m 0 2 * (m 1 0 * m 2 1 - m 1 1 * m 2 0)

/-- The function `glm::inverse` on a 3x3 matrix: cofactors times one over the determinant. -/
def inverse (m : mat3) : mat3 :=
  let d : ℚ := 1 / determinant m
  Matrix.of fun i j =>
    match i, j with
    | 0, 0 => (m 1 1 * m 2 2 - m 1 2 * m 2 1) * d
    | 0, 1 => -(m 0 1 * m 2 2 - m 0 2 * m 2 1) * d
    | 0, 2 => (m 0 1 * m 1 2 - m 0 2 * m 1 1) * d
    | 1, 0 => -(m 1 0 * m 2 2 - m 1 2 * m 2 0) * d
    | 1, 1 => (m 0 0 * m 2 2 - m 0 2 * m 2 0) * d
    | 1, 2 => -(m 0 0 * m 1 2 - m 0 2 * m 1 0) * d
    | 2, 0 => (m 1 0 * m 2 1 - m 1 1 * m 2 0) * d
    | 2, 1 => -(m 0 0 * m 2 1 - m 0 1 * m 2 0) * d
    | 2, 2 => (m 0 0 * m 1 1 - m 0 1 * m 1 0) * d

/-- The function `glm::transpose`. -/
def transpose (m : mat3) : mat3 := Matrix.transpose m

/-! ## Collaborators: camera, shader, material, mesh, statistics -/

/-- The camera snapshot of a pass: viewport rectangle and the two transforms. -/
structure Camera where
  viewportX : Int
  viewportY : Int
  viewportWidth : Int
  viewportHeight : Int
  viewTransform : mat4
  projectionTransform : mat4

/-- Modelled from the spec: `Camera::getViewTransform` (Camera.hpp is not among the sources)
returns the view transform matrix of the camera. -/
def Camera.getViewTransform (c : Camera) : mat4 := c.viewTransform

/-- A shader object: its address and its uniform locations (`-1` is an absent slot). -/
structure Shader where
  id : Nat
  uniformLocationModel : Int
  uniformLocationView : Int
  uniformLocationProjection : Int
  uniformLocationNormal : Int
  uniformLocationViewport : Int

/-- A material object: its address, the shader it renders with and its color. -/
structure Material where
  id : Nat
  shader : Shader
  color : vec4

/-- The call `material->getShader().get()`. -/
def Material.getShader (m : Material) : Shader := m.shader

/-- The call `material.setColor(color)`. -/
def Material.setColor (m : Material) (color : vec4) : Material := { m with color := color }

/-- The enum `MeshTopology`, carried as the `GLenum` value it is cast to. -/
abbrev MeshTopology := Nat

/-- A mesh object: its address, vertex positions, vertex count, 16-bit index list and
primitive topology. -/
structure Mesh where
  id : Nat
  vertexPositions : List vec3
  vertexCount : Int
  indices : List Nat
  meshTopology : MeshTopology

def Mesh.getIndices (m : Mesh) : List Nat := m.indices

/-- The cast `(int) n` of a container size `n` (a `size_t`): the value modulo 2^32, read as a
signed 32-bit integer. -/
def intOfSize (n : Nat) : Int :=
  if n % 2 ^ 32 < 2 ^ 31 then ((n % 2 ^ 32 : Nat) : Int)
  else ((n % 2 ^ 32 : Nat) : Int) - 2 ^ 32

def Mesh.getVertexCount (m : Mesh) : Int := m.vertexCount

def Mesh.getMeshTopology (m : Mesh) : MeshTopology := m.meshTopology

/-- The counters of `RenderStats` touched by a pass. -/
structure RenderStats where
  drawCalls : Int
  stateChangesShader : Int
  stateChangesMaterial : Int
  stateChangesMesh : Int

/-! ## Side effects -/

/-- The index type argument of `glDrawElements`. -/
inductive IndexType where
  | GL_UNSIGNED_BYTE
  | GL_UNSIGNED_SHORT
  | GL_UNSIGNED_INT
  deriving DecidableEq, Repr

/-- What `glm::value_ptr` points at in a matrix upload. -/
inductive MatrixValue where
  | ofMat4 (m : mat4)
  | ofMat3 (m : mat3)

/-- One side effect of the render pass code. -/
inductive Event where
  | glClearColor (r g b a : ℚ)
  | glClearDepthf (depth : ℚ)
  | glDepthMask (flag : Bool)
  | glClearStencil (s : Int)
  | glClear (mask : Nat)
  | ImGui_SRE_NewFrame
  | ImGui_Render
  | glViewport (x y width height : Int)
  | glScissor (x y width height : Int)
  | shaderBind (shader : Nat)
  | materialBind (material : Nat)
  | meshBind (mesh : Nat) (shader : Nat)
  | glUniformMatrix4fv (location : Int) (count : Nat) (transposed : Bool) (value : MatrixValue)
  | glUniformMatrix3fv (location : Int) (count : Nat) (transposed : Bool) (value : MatrixValue)
  | glUniform4fv (location : Int) (count : Nat) (value : vec4)
  | setLights (shader : Nat) (worldLights : Option Nat) (viewTransform : mat4)
  | glDrawArrays (mode : MeshTopology) (first : Int) (count : Int)
  | glDrawElements (mode : MeshTopology) (count : Int) (type : IndexType) (offset : Nat)
  | incDrawCalls (stats : Nat)
  | incStateChangesShader (stats : Nat)
  | incStateChangesMaterial (stats : Nat)
  | incStateChangesMesh (stats : Nat)
  | setLastBoundShader (pass : Nat) (shader : Nat)
  | setLastBoundMaterial (pass : Nat) (material : Nat)
  | setLastBoundMesh (pass : Nat) (mesh : Nat)
  | setInstance (pass : Option Nat)

/-- The two draw commands. -/
def Event.isDrawCommand : Event → Bool
  | Event.glDrawArrays _ _ _ => true
  | Event.glDrawElements _ _ _ _ => true
  | _ => false

/-- The call `material->bind()`. -/
def Event.isMaterialBind : Event → Bool
  | Event.materialBind _ => true
  | _ => false

/-- The call `mesh->bind(shader)`. -/
def Event.isMeshBind : Event → Bool
  | Event.meshBind _ _ => true
  | _ => false

/-- A write of the static `instance`. -/
def Event.isInstanceWrite : Event → Bool
  | Event.setInstance _ => true
  | _ => false

/-- The clear-value programming calls, the depth mask and the clear itself. -/
def Event.isClearCall : Event → Bool
  | Event.glClearColor _ _ _ _ => true
  | Event.glClearDepthf _ => true
  | Event.glDepthMask _ => true
  | Event.glClearStencil _ => true
  | Event.glClear _ => true
  | _ => false

/-- The call `glClear`. -/
def Event.isClear : Event → Bool
  | Event.glClear _ => true
  | _ => false

/-- The effects of `setupShader`: the shader counter, the shader slot, the shader bind, the
uniform uploads and the lighting upload. -/
def Event.isShaderSetup : Event → Bool
  | Event.incStateChangesShader _ => true
  | Event.setLastBoundShader _ _ => true
  | Event.shaderBind _ => true
  | Event.glUniformMatrix4fv _ _ _ _ => true
  | Event.glUniformMatrix3fv _ _ _ _ => true
  | Event.glUniform4fv _ _ _ => true
  | Event.setLights _ _ _ => true
  | _ => false

def GL_COLOR_BUFFER_BIT : Nat := 0x4000

def GL_DEPTH_BUFFER_BIT : Nat := 0x100

def GL_STENCIL_BUFFER_BIT : Nat := 0x400

/-! ## The pass, its builder and the process state -/

/-- The fields of a `RenderPass` object. -/
structure RenderPass where
  camera : Camera
  worldLights : Option Nat
  renderStats : Nat
  gui : Bool
  lastBoundShader : Option Nat
  lastBoundMaterial : Option Nat
  lastBoundMesh : Option Nat

/-- The fields of a `RenderPassBuilder` object. -/
structure RenderPassBuilder where
  name : String
  renderStats : Nat
  camera : Camera
  worldLights : Option Nat
  clearColor : Bool
  clearColorValue : vec4
  clearDepth : Bool
  clearDepthValue : ℚ
  clearStencil : Bool
  clearStencilValue : Int
  gui : Bool

/-- The process state. -/
structure World where
  /-- The static `RenderPass::instance`. -/
  instance_ : Option Nat
  /-- The pass objects, by address. -/
  passes : Nat → RenderPass
  /-- The statistics objects, by address. -/
  stats : Nat → RenderStats
  /-- The function-local static `material` of `drawLines`, once initialised. -/
  linesMaterial : Option Material
  /-- The function-local static `mesh` of `drawLines`, once initialised. -/
  linesMesh : Option Mesh
  /-- The shader returned by `Shader::getUnlit()`. -/
  unlit : Shader
  /-- The address of the function-local static `material` of `drawLines`. -/
  linesMaterialAddr : Nat
  /-- The address of the mesh allocated by the first `drawLines` call. -/
  linesMeshAddr : Nat
  /-- Every side effect so far, oldest first. -/
  trace : List Event

/-- The events appended to the trace between the world `w` and the later world `w1`. -/
def World.eventsSince (w1 w : World) : List Event := w1.trace.drop w.trace.length

/-- Record one side effect. -/
def World.emit (w : World) (e : Event) : World := { w with trace := w.trace ++ [e] }

/-- Overwrite the pass object at address `self`. -/
def World.setPass (w : World) (self : Nat) (p : RenderPass) : World :=
  { w with passes := Function.update w.passes self p }

/-- Overwrite the statistics object at address `r`. -/
def World.setStats (w : World) (r : Nat) (s : RenderStats) : World :=
  { w with stats := Function.update w.stats r s }

/-- The write `instance = v`. -/
def World.setInstance (w : World) (v : Option Nat) : World :=
  ({ w with instance_ := v }).emit (Event.setInstance v)

/-! ## `RenderPass::setupShader`, `RenderPass::draw`, `RenderPass::finish` -/

/-- The normal matrix of the branch for the shader that is already bound (line 138). -/
def normalMatrixSameShader (camera : Camera) (modelTransform : mat4) : mat3 :=
  transpose (inverse (toMat3 (camera.getViewTransform * modelTransform)))

/-- The normal matrix of the branch for a shader that is not bound yet (line 155). -/
def normalMatrixOtherShader (camera : Camera) (modelTransform : mat4) : mat3 :=
  transpose (inverse (toMat3 camera.getViewTransform * toMat3 modelTransform))

/-- The method `RenderPass::setupShader` of the pass at address `self`. -/
def RenderPass.setupShader (w : World) (self : Nat) (modelTransform : mat4) (shader : Shader) :
    World :=
  let camera := (w.passes self).camera
  if (w.passes self).lastBoundShader = some shader.id then
    let w := if shader.uniformLocationModel ≠ -1 then
        w.emit (Event.glUniformMatrix4fv shader.uniformLocationModel 1 false
          (MatrixValue.ofMat4 modelTransform))
      else w
    let w := if shader.uniformLocationNormal ≠ -1 then
        w.emit (Event.glUniformMatrix4fv shader.uniformLocationNormal 1 false
          (MatrixValue.ofMat3 (normalMatrixSameShader camera modelTransform)))
      else w
    w
  else
    let r := (w.passes self).renderStats
    let w := (w.setStats r { w.stats r with
      stateChangesShader := (w.stats r).stateChangesShader + 1 }).emit
        (Event.incStateChangesShader r)
    let w := (w.setPass self { w.passes self with lastBoundShader := some shader.id }).emit
      (Event.setLastBoundShader self shader.id)
    let w := w.emit (Event.shaderBind shader.id)
    let w := if shader.uniformLocationModel ≠ -1 then
        w.emit (Event.glUniformMatrix4fv shader.uniformLocationModel 1 false
          (MatrixValue.ofMat4 modelTransform))
      else w
    let w := if shader.uniformLocationView ≠ -1 then
        w.emit (Event.glUniformMatrix4fv shader.uniformLocationView 1 false
          (MatrixValue.ofMat4 camera.viewTransform))
      else w
    let w := if shader.uniformLocationProjection ≠ -1 then
        w.emit (Event.glUniformMatrix4fv shader.uniformLocationProjection 1 false
          (MatrixValue.ofMat4 camera.projectionTransform))
      else w
    let w := if shader.uniformLocationNormal ≠ -1 then
        w.emit (Event.glUniformMatrix3fv shader.uniformLocationNormal 1 false
          (MatrixValue.ofMat3 (normalMatrixOtherShader camera modelTransform)))
      else w
    let w := if shader.uniformLocationViewport ≠ -1 then
        w.emit (Event.glUniform4fv shader.uniformLocationViewport 1
          ⟨camera.viewportWidth, camera.viewportHeight, camera.viewportX, camera.viewportY⟩)
      else w
    w.emit (Event.setLights shader.id (w.passes self).worldLights camera.getViewTransform)

/-- The method `RenderPass::draw` of the pass at address `self`; `meshPtr` is `none` for an
empty shared pointer. -/
def RenderPass.draw (w : World) (self : Nat) (meshPtr : Option Mesh) (modelTransform : mat4)
    (material : Material) : Except World World :=
  match w.instance_ with
  | none => Except.error w
  | some _ =>
    let shader := material.getShader
    match meshPtr with
    | none => Except.error w
    | some mesh =>
      let r := (w.passes self).renderStats
      let w := (w.setStats r { w.stats r with drawCalls := (w.stats r).drawCalls + 1 }).emit
        (Event.incDrawCalls r)
      let w := RenderPass.setupShader w self modelTransform shader
      let w := if (w.passes self).lastBoundMaterial ≠ some material.id then
          let r := (w.passes self).renderStats
          let w := (w.setStats r { w.stats r with
            stateChangesMaterial := (w.stats r).stateChangesMaterial + 1 }).emit
              (Event.incStateChangesMaterial r)
          let w := (w.setPass self { w.passes self with
            lastBoundMaterial := some material.id }).emit
              (Event.setLastBoundMaterial self material.id)
          w.emit (Event.materialBind material.id)
        else w
      let w := if (w.passes self).lastBoundMesh ≠ some mesh.id then
          let r := (w.passes self).renderStats
          let w := (w.setStats r { w.stats r with
            stateChangesMesh := (w.stats r).stateChangesMesh + 1 }).emit
              (Event.incStateChangesMesh r)
          let w := (w.setPass self { w.passes self with lastBoundMesh := some mesh.id }).emit
            (Event.setLastBoundMesh self mesh.id)
          w.emit (Event.meshBind mesh.id shader.id)
        else w
      let indexCount : Int := intOfSize mesh.getIndices.length
      if indexCount = 0 then
        Except.ok (w.emit (Event.glDrawArrays mesh.getMeshTopology 0 mesh.getVertexCount))
      else
        Except.ok (w.emit
          (Event.glDrawElements mesh.getMeshTopology indexCount IndexType.GL_UNSIGNED_SHORT 0))

/-- The method `RenderPass::finish` of the pass at address `self`. -/
def RenderPass.finish (w : World) (self : Nat) : Except World World :=
  match w.instance_ with
  | none => Except.error w
  | some _ =>
    let w := if (w.passes self).gui then w.emit Event.ImGui_Render else w
    Except.ok (w.setInstance none)

/-! ## Construction: `RenderPass::RenderPass` and `RenderPassBuilder` -/

/-- Modelled from the spec: the default member initialisers of RenderPass.hpp (not among the
sources) leave the three cache slots unset; the other members come from the initialiser list
of the constructor. -/
def RenderPass.init (camera : Camera) (worldLights : Option Nat) (renderStats : Nat)
    (gui : Bool) : RenderPass :=
  { camera := camera, worldLights := worldLights, renderStats := renderStats, gui := gui,
    lastBoundShader := none, lastBoundMaterial := none, lastBoundMesh := none }

/-- The constructor `RenderPass::RenderPass`, building the object at address `self`. -/
def RenderPass.RenderPass (w : World) (self : Nat) (camera : Camera) (worldLights : Option Nat)
    (renderStats : Nat) (gui : Bool) : Except World World := do
  let w := w.setPass self (RenderPass.init camera worldLights renderStats gui)
  let w ← match w.instance_ with
    | some inst => RenderPass.finish w inst
    | none => Except.ok w
  let w := w.emit (Event.glViewport camera.viewportX camera.viewportY camera.viewportWidth
    camera.viewportHeight)
  let w := w.emit (Event.glScissor camera.viewportX camera.viewportY camera.viewportWidth
    camera.viewportHeight)
  Except.ok (w.setInstance (some self))

def RenderPassBuilder.withName (b : RenderPassBuilder) (name : String) : RenderPassBuilder :=
  { b with name := name }

def RenderPassBuilder.withCamera (b : RenderPassBuilder) (camera : Camera) :
    RenderPassBuilder :=
  { b with camera := camera }

def RenderPassBuilder.withWorldLights (b : RenderPassBuilder) (worldLights : Option Nat) :
    RenderPassBuilder :=
  { b with worldLights := worldLights }

def RenderPassBuilder.withClearColor (b : RenderPassBuilder) (enabled : Bool) (color : vec4) :
    RenderPassBuilder :=
  { b with clearColor := enabled, clearColorValue := color }

def RenderPassBuilder.withClearDepth (b : RenderPassBuilder) (enabled : Bool) (value : ℚ) :
    RenderPassBuilder :=
  { b with clearDepth := enabled, clearDepthValue := value }

def RenderPassBuilder.withClearStencil (b : RenderPassBuilder) (enabled : Bool) (value : Int) :
    RenderPassBuilder :=
  { b with clearStencil := enabled, clearStencilValue := value }

def RenderPassBuilder.withGUI (b : RenderPassBuilder) (enabled : Bool) : RenderPassBuilder :=
  { b with gui := enabled }

/-- The method `RenderPassBuilder::build`; the returned pass is constructed in place at
address `self`.  Each of the three clear blocks of the source both calls the device and
extends the local mask `clear`: the two updates are the two bindings that test the same
flag. -/
def RenderPassBuilder.build (b : RenderPassBuilder) (w : World) (self : Nat) :
    Except World World :=
  let clear : Nat := 0
  let w := if b.clearColor then
      w.emit (Event.glClearColor b.clearColorValue.r b.clearColorValue.g b.clearColorValue.b
        b.clearColorValue.a)
    else w
  let clear := if b.clearColor then clear ||| GL_COLOR_BUFFER_BIT else clear
  let w := if b.clearDepth then
      (w.emit (Event.glClearDepthf b.clearDepthValue)).emit (Event.glDepthMask true)
    else w
  let clear := if b.clearDepth then clear ||| GL_DEPTH_BUFFER_BIT else clear
  let w := if b.clearStencil then w.emit (Event.glClearStencil b.clearStencilValue) else w
  let clear := if b.clearStencil then clear ||| GL_STENCIL_BUFFER_BIT else clear
  let w := if clear ≠ 0 then w.emit (Event.glClear clear) else w
  let w := if b.gui then w.emit Event.ImGui_SRE_NewFrame else w
  RenderPass.RenderPass w self b.camera b.worldLights b.renderStats b.gui

/-! ## `RenderPass::drawLines` -/

/-- Modelled from the spec: `Mesh::create().withPositions(verts).withMeshTopology(t).build()`
(Mesh.cpp is not among the sources) allocates a mesh holding the given positions and
topology and no indices. -/
def Mesh.create (addr : Nat) (verts : List vec3) (meshTopology : MeshTopology) : Mesh :=
  { id := addr, vertexPositions := verts, vertexCount := verts.length, indices := [],
    meshTopology := meshTopology }

/-- Modelled from the spec: `mesh->update().withPositions(verts).build()` (Mesh.cpp is not
among the sources) replaces the vertex positions of the mesh in place. -/
def Mesh.updatePositions (m : Mesh) (verts : List vec3) : Mesh :=
  { m with vertexPositions := verts, vertexCount := verts.length }

/-- The identity matrix `glm::mat4(1)`. -/
def mat4One : mat4 := 1

/-- The method `RenderPass::drawLines` of the pass at address `self`. -/
def RenderPass.drawLines (w : World) (self : Nat) (verts : List vec3) (color : vec4)
    (meshTopology : MeshTopology) : Except World World :=
  match w.instance_ with
  | none => Except.error w
  | some _ =>
    let material : Material := match w.linesMaterial with
      | some m => m
      | none => { id := w.linesMaterialAddr, shader := w.unlit, color := ⟨1, 1, 1, 1⟩ }
    let mesh : Mesh := match w.linesMesh with
      | some m => m
      | none => Mesh.create w.linesMeshAddr verts meshTopology
    let mesh := mesh.updatePositions verts
    let material := material.setColor color
    let w := { w with linesMaterial := some material, linesMesh := some mesh }
    RenderPass.draw w self (some mesh) mat4One material

/-- A draw request: mesh, model transform and material. -/
structure DrawRequest where
  mesh : Mesh
  modelTransform : mat4
  material : Material

/-- A sequence of `draw` calls on the pass at address `self`, in call order. -/
def RenderPass.drawAll (w : World) (self : Nat) : List DrawRequest → Except World World
  | [] => Except.ok w
  | d :: ds =>
    match RenderPass.draw w self (some d.mesh) d.modelTransform d.material with
    | Except.ok w1 => RenderPass.drawAll w1 self ds
    | Except.error e => Except.error e

/-- The arguments of one `drawLines` call. -/
structure LinesRequest where
  verts : List vec3
  color : vec4
  meshTopology : MeshTopology

/-- A sequence of `drawLines` calls on the pass at address `self`, in call order. -/
def RenderPass.drawLinesAll (w : World) (self : Nat) : List LinesRequest → Except World World
  | [] => Except.ok w
  | d :: ds =>
    match RenderPass.drawLines w self d.verts d.color d.meshTopology with
    | Except.ok w1 => RenderPass.drawLinesAll w1 self ds
    | Except.error e => Except.error e

/-! ## Sample objects -/

/-- A shader exposing every uniform slot. -/
def sampleShader (addr : Nat) : Shader :=
  { id := addr, uniformLocationModel := 0, uniformLocationView := 1,
    uniformLocationProjection := 2, uniformLocationNormal := 3, uniformLocationViewport := 4 }

/-- A white material at address `addr` rendering with the shader at address `shader`. -/
def sampleMaterial (addr shader : Nat) : Material :=
  { id := addr, shader := sampleShader shader, color := ⟨1, 1, 1, 1⟩ }

/-- A triangle (topology `GL_TRIANGLES`) without indices. -/
def sampleTriangle (addr : Nat) : Mesh :=
  { id := addr, vertexPositions := [⟨0, 0, 0⟩, ⟨1, 0, 0⟩, ⟨0, 1, 0⟩], vertexCount := 3,
    indices := [], meshTopology := 4 }

/-- A quad (topology `GL_TRIANGLES`) with six indices. -/
def sampleQuad (addr : Nat) : Mesh :=
  { id := addr, vertexPositions := [⟨0, 0, 0⟩, ⟨1, 0, 0⟩, ⟨1, 1, 0⟩, ⟨0, 1, 0⟩],
    vertexCount := 4, indices := [0, 1, 2, 2, 3, 0], meshTopology := 4 }

/-- A mesh of three vertices whose index list has 2^32 entries. -/
def hugeIndexMesh (addr : Nat) : Mesh :=
  { id := addr, vertexPositions := [⟨0, 0, 0⟩, ⟨1, 0, 0⟩, ⟨0, 1, 0⟩], vertexCount := 3,
    indices := List.replicate (2 ^ 32) 0, meshTopology := 4 }

/-- A camera with an 800x600 viewport and identity transforms. -/
def sampleCamera : Camera :=
  { viewportX := 0, viewportY := 0, viewportWidth := 800, viewportHeight := 600,
    viewTransform := 1, projectionTransform := 1 }

/-- A process in which no pass is active and nothing has happened yet. -/
def idleWorld : World :=
  { instance_ := none,
    passes := fun _ => RenderPass.init sampleCamera none 0 false,
    stats := fun _ => ⟨0, 0, 0, 0⟩,
    linesMaterial := none, linesMesh := none,
    unlit := sampleShader 100, linesMaterialAddr := 101, linesMeshAddr := 102,
    trace := [] }

/-- A process in which the pass at address 1 (built with the gui flag `gui`) is active and
has not drawn yet. -/
def activeWorld (gui : Bool) : World :=
  { idleWorld with
    instance_ := some 1,
    passes := fun _ => RenderPass.init sampleCamera none 0 gui }

/-! ## Closed forms used by the proofs -/

/-- The events of one `setupShader` call on a pass with fields `p` at address `self`. -/
def setupShaderEvents (p : RenderPass) (self : Nat) (M : mat4) (s : Shader) : List Event :=
  if p.lastBoundShader = some s.id then
    (if s.uniformLocationModel ≠ -1 then
      [Event.glUniformMatrix4fv s.uniformLocationModel 1 false (MatrixValue.ofMat4 M)] else [])
    ++ (if s.uniformLocationNormal ≠ -1 then
      [Event.glUniformMatrix4fv s.uniformLocationNormal 1 false
        (MatrixValue.ofMat3 (normalMatrixSameShader p.camera M))] else [])
  else
    [Event.incStateChangesShader p.renderStats, Event.setLastBoundShader self s.id,
      Event.shaderBind s.id]
    ++ (if s.uniformLocationModel ≠ -1 then
      [Event.glUniformMatrix4fv s.uniformLocationModel 1 false (MatrixValue.ofMat4 M)] else [])
    ++ (if s.uniformLocationView ≠ -1 then
      [Event.glUniformMatrix4fv s.uniformLocationView 1 false
        (MatrixValue.ofMat4 p.camera.viewTransform)] else [])
    ++ (if s.uniformLocationProjection ≠ -1 then
      [Event.glUniformMatrix4fv s.uniformLocationProjection 1 false
        (MatrixValue.ofMat4 p.camera.projectionTransform)] else [])
    ++ (if s.uniformLocationNormal ≠ -1 then
      [Event.glUniformMatrix3fv s.uniformLocationNormal 1 false
        (MatrixValue.ofMat3 (normalMatrixOtherShader p.camera M))] else [])
    ++ (if s.uniformLocationViewport ≠ -1 then
      [Event.glUniform4fv s.uniformLocationViewport 1
        ⟨p.camera.viewportWidth, p.camera.viewportHeight, p.camera.viewportX,
          p.camera.viewportY⟩] else [])
    ++ [Event.setLights s.id p.worldLights p.camera.getViewTransform]

/-- The draw command of a mesh. -/
def drawCommand (mesh : Mesh) : Event :=
  if intOfSize mesh.indices.length = 0 then
    Event.glDrawArrays mesh.meshTopology 0 mesh.vertexCount
  else
    Event.glDrawElements mesh.meshTopology (intOfSize mesh.indices.length)
      IndexType.GL_UNSIGNED_SHORT 0

/-- The events of one successful `draw` call on a pass with fields `p` at address `self`. -/
def drawEvents (p : RenderPass) (self : Nat) (mesh : Mesh) (M : mat4) (mat : Material) :
    List Event :=
  [Event.incDrawCalls p.renderStats] ++ setupShaderEvents p self M mat.shader
  ++ (if p.lastBoundMaterial = some mat.id then [] else
      [Event.incStateChangesMaterial p.renderStats, Event.setLastBoundMaterial self mat.id,
        Event.materialBind mat.id])
  ++ (if p.lastBoundMesh = some mesh.id then [] else
      [Event.incStateChangesMesh p.renderStats, Event.setLastBoundMesh self mesh.id,
        Event.meshBind mesh.id mat.shader.id])
  ++ [drawCommand mesh]

/-- The counters after one successful `draw` call on a pass with fields `p`. -/
def drawStats (p : RenderPass) (mesh : Mesh) (mat : Material) (s : RenderStats) : RenderStats :=
  { drawCalls := s.drawCalls + 1,
    stateChangesShader :=
      s.stateChangesShader + (if p.lastBoundShader = some mat.shader.id then 0 else 1),
    stateChangesMaterial :=
      s.stateChangesMaterial + (if p.lastBoundMaterial = some mat.id then 0 else 1),
    stateChangesMesh :=
      s.stateChangesMesh + (if p.lastBoundMesh = some mesh.id then 0 else 1) }

/-- The world after one successful `draw` call. -/
def drawResult (w : World) (self : Nat) (mesh : Mesh) (M : mat4) (mat : Material) : World :=
  { w with
    passes := Function.update w.passes self
      { w.passes self with
        lastBoundShader := some mat.shader.id,
        lastBoundMaterial := some mat.id,
        lastBoundMesh := some mesh.id },
    stats := Function.update w.stats (w.passes self).renderStats
      (drawStats (w.passes self) mesh mat (w.stats (w.passes self).renderStats)),
    trace := w.trace ++ drawEvents (w.passes self) self mesh M mat }

/-- The events of one successful `finish` call on a pass with fields `p`. -/
def finishEvents (p : RenderPass) : List Event :=
  (if p.gui then [Event.ImGui_Render] else []) ++ [Event.setInstance none]

/-- The events of the constructor body for a pass with camera `camera` at address `self`,
when `previous` holds the fields of the pass that `instance` designates (if any). -/
def constructEvents (previous : Option RenderPass) (self : Nat) (camera : Camera) :
    List Event :=
  (match previous with
    | some p => finishEvents p
    | none => [])
  ++ [Event.glViewport camera.viewportX camera.viewportY camera.viewportWidth
        camera.viewportHeight,
      Event.glScissor camera.viewportX camera.viewportY camera.viewportWidth
        camera.viewportHeight,
      Event.setInstance (some self)]

/-- The clear mask accumulated by `build`. -/
def clearMask (b : RenderPassBuilder) : Nat :=
  (if b.clearColor then GL_COLOR_BUFFER_BIT else 0)
    ||| (if b.clearDepth then GL_DEPTH_BUFFER_BIT else 0)
    ||| (if b.clearStencil then GL_STENCIL_BUFFER_BIT else 0)

/-- The events of `build` that precede the construction of the pass. -/
def clearEvents (b : RenderPassBuilder) : List Event :=
  (if b.clearColor then
    [Event.glClearColor b.clearColorValue.r b.clearColorValue.g b.clearColorValue.b
      b.clearColorValue.a] else [])
  ++ (if b.clearDepth then [Event.glClearDepthf b.clearDepthValue, Event.glDepthMask true]
    else [])
  ++ (if b.clearStencil then [Event.glClearStencil b.clearStencilValue] else [])
  ++ (if b.clearColor || b.clearDepth || b.clearStencil then [Event.glClear (clearMask b)]
    else [])

/-- The world after the constructor has run. -/
def constructResult (w : World) (self : Nat) (camera : Camera) (worldLights : Option Nat)
    (renderStats : Nat) (gui : Bool) : World :=
  { w with
    instance_ := some self,
    passes := Function.update w.passes self (RenderPass.init camera worldLights renderStats gui),
    trace := w.trace ++ constructEvents
      (w.instance_.map
        (Function.update w.passes self (RenderPass.init camera worldLights renderStats gui)))
      self camera }

/-- The shared material as `drawLines` uses it: the function-local static, initialised with
the unlit shader on first use, with its color set to `color`. -/
def linesMaterialNow (w : World) (color : vec4) : Material :=
  (match w.linesMaterial with
    | some m => m
    | none => { id := w.linesMaterialAddr, shader := w.unlit, color := ⟨1, 1, 1, 1⟩ }).setColor
    color

/-- The shared mesh as `drawLines` uses it: the function-local static, created from the
arguments of the first call, with its positions replaced by `verts`. -/
def linesMeshNow (w : World) (verts : List vec3) (meshTopology : MeshTopology) : Mesh :=
  (match w.linesMesh with
    | some m => m
    | none => Mesh.create w.linesMeshAddr verts meshTopology).updatePositions verts

/-- A camera whose view transform is the translation by (1, 0, 0). -/
def translatedCamera : Camera :=
  { sampleCamera with viewTransform := !![1, 0, 0, 1; 0, 1, 0, 0; 0, 0, 1, 0; 0, 0, 0, 1] }

/-- A model transform whose bottom row is (1, 0, 0, 1): a projective, non-affine matrix. -/
def projectiveModel : mat4 := !![1, 0, 0, 0; 0, 1, 0, 0; 0, 0, 1, 0; 1, 0, 0, 1]

/-- The three bind calls: `shader->bind()`, `material->bind()` and `mesh->bind(shader)`. -/
def Event.isBind : Event → Bool
  | Event.shaderBind _ => true
  | Event.materialBind _ => true
  | Event.meshBind _ _ => true
  | _ => false

/-- A write of one of the three cache slots of a pass. -/
def Event.isCacheWrite : Event → Bool
  | Event.setLastBoundShader _ _ => true
  | Event.setLastBoundMaterial _ _ => true
  | Event.setLastBoundMesh _ _ => true
  | _ => false

/-- The process after the gui pass at address 1 was active and a pass without gui was then
built at address 2: the pass at address 2 is active, the one at address 1 is finished. -/
def twoPassWorld : World :=
  constructResult (activeWorld true) 2 sampleCamera none 0 false

/-! ## Frame lemmas for `setupShader` -/

theorem setupShader_instance (w : World) (self : Nat) (M : mat4) (s : Shader) :
    (RenderPass.setupShader w self M s).instance_ = w.instance_ := by
  unfold RenderPass.setupShader
  simp only [World.emit, World.setStats, World.setPass]
  split_ifs <;> rfl

theorem setupShader_passes (w : World) (self : Nat) (M : mat4) (s : Shader) :
    (RenderPass.setupShader w self M s).passes
      = Function.update w.passes self { w.passes self with lastBoundShader := some s.id } := by
  unfold RenderPass.setupShader
  simp only [World.emit, World.setStats, World.setPass]
  split_ifs with h <;> first
    | rfl
    | (funext a
       by_cases ha : a = self
       · subst ha
         simp [← h]
       · simp [Function.update_noteq ha])

theorem setupShader_stats (w : World) (self : Nat) (M : mat4) (s : Shader) :
    (RenderPass.setupShader w self M s).stats
      = if (w.passes self).lastBoundShader = some s.id then w.stats
        else Function.update w.stats (w.passes self).renderStats
          { w.stats (w.passes self).renderStats with
            stateChangesShader :=
              (w.stats (w.passes self).renderStats).stateChangesShader + 1 } := by
  unfold RenderPass.setupShader
  simp only [World.emit, World.setStats, World.setPass]
  split_ifs <;> rfl

theorem setupShader_trace (w : World) (self : Nat) (M : mat4) (s : Shader) :
    (RenderPass.setupShader w self M s).trace
      = w.trace ++ setupShaderEvents (w.passes self) self M s := by
  unfold RenderPass.setupShader setupShaderEvents
  simp only [World.emit, World.setStats, World.setPass]
  split_ifs <;> simp

theorem setupShader_statics (w : World) (self : Nat) (M : mat4) (s : Shader) :
    (RenderPass.setupShader w self M s).linesMaterial = w.linesMaterial
    ∧ (RenderPass.setupShader w self M s).linesMesh = w.linesMesh
    ∧ (RenderPass.setupShader w self M s).unlit = w.unlit
    ∧ (RenderPass.setupShader w self M s).linesMaterialAddr = w.linesMaterialAddr
    ∧ (RenderPass.setupShader w self M s).linesMeshAddr = w.linesMeshAddr := by
  unfold RenderPass.setupShader
  simp only [World.emit, World.setStats, World.setPass]
  split_ifs <;> simp

/-- The whole world after `setupShader`, field by field. -/
theorem setupShader_eq (w : World) (self : Nat) (M : mat4) (s : Shader) :
    RenderPass.setupShader w self M s =
      { w with
        passes := Function.update w.passes self
          { w.passes self with lastBoundShader := some s.id },
        stats := if (w.passes self).lastBoundShader = some s.id then w.stats
          else Function.update w.stats (w.passes self).renderStats
            { w.stats (w.passes self).renderStats with
              stateChangesShader :=
                (w.stats (w.passes self).renderStats).stateChangesShader + 1 },
        trace := w.trace ++ setupShaderEvents (w.passes self) self M s } := by
  have h1 := setupShader_instance w self M s
  have h2 := setupShader_passes w self M s
  have h3 := setupShader_stats w self M s
  have h4 := setupShader_trace w self M s
  obtain ⟨h5, h6, h7, h8, h9⟩ := setupShader_statics w self M s
  cases hw : RenderPass.setupShader w self M s
  rw [hw] at h1 h2 h3 h4 h5 h6 h7 h8 h9
  simp only at h1 h2 h3 h4 h5 h6 h7 h8 h9
  subst h1 h2 h3 h4 h5 h6 h7 h8 h9
  rfl

/-- A successful `draw` is the closed form `drawResult`. -/
theorem draw_eq (w : World) (self : Nat) (mesh : Mesh) (M : mat4) (mat : Material)
    (h : w.instance_ ≠ none) :
    RenderPass.draw w self (some mesh) M mat = Except.ok (drawResult w self mesh M mat) := by
  obtain ⟨a, ha⟩ : ∃ a, w.instance_ = some a := by
    cases hi : w.instance_ with
    | none => exact absurd hi h
    | some a => exact ⟨a, rfl⟩
  unfold RenderPass.draw
  by_cases c1 : (w.passes self).lastBoundShader = some mat.shader.id <;>
  by_cases c2 : (w.passes self).lastBoundMaterial = some mat.id <;>
  by_cases c3 : (w.passes self).lastBoundMesh = some mesh.id <;>
  by_cases c4 : intOfSize mesh.indices.length = 0 <;>
  simp [ha, setupShader_eq, Material.getShader, World.emit, World.setStats, World.setPass,
    drawResult, drawEvents, drawStats, drawCommand, Mesh.getIndices, Mesh.getVertexCount,
    Mesh.getMeshTopology, c1, c2, c3, c4]

theorem drawResult_instance (w : World) (self : Nat) (mesh : Mesh) (M : mat4) (mat : Material) :
    (drawResult w self mesh M mat).instance_ = w.instance_ := rfl

theorem drawResult_pass (w : World) (self : Nat) (mesh : Mesh) (M : mat4) (mat : Material) :
    (drawResult w self mesh M mat).passes self =
      { w.passes self with
        lastBoundShader := some mat.shader.id,
        lastBoundMaterial := some mat.id,
        lastBoundMesh := some mesh.id } := by
  simp [drawResult]

theorem drawResult_stats (w : World) (self : Nat) (mesh : Mesh) (M : mat4) (mat : Material) :
    (drawResult w self mesh M mat).stats (w.passes self).renderStats =
      drawStats (w.passes self) mesh mat (w.stats (w.passes self).renderStats) := by
  simp [drawResult]

theorem drawResult_trace (w : World) (self : Nat) (mesh : Mesh) (M : mat4) (mat : Material) :
    (drawResult w self mesh M mat).trace = w.trace ++ drawEvents (w.passes self) self mesh M mat :=
  rfl

theorem getLast?_elim_cons {α β : Type} (e : α) (es : List α) (a b : β) (f : α → β) :
    (e :: es).getLast?.elim a f = (e :: es).getLast?.elim b f := by
  rw [List.getLast?_eq_getLast _ (List.cons_ne_nil e es)]
  rfl

/-- A sequence of draws on an active pass succeeds, keeps the pass active and leaves in
each cache slot the identity submitted by the last draw. -/
theorem drawAll_ok (self : Nat) (ds : List DrawRequest) :
    ∀ w : World, w.instance_ ≠ none →
      ∃ w1, RenderPass.drawAll w self ds = Except.ok w1
        ∧ w1.instance_ = w.instance_
        ∧ (w1.passes self).renderStats = (w.passes self).renderStats
        ∧ (w1.passes self).lastBoundShader =
            ds.getLast?.elim (w.passes self).lastBoundShader (fun d => some d.material.shader.id)
        ∧ (w1.passes self).lastBoundMaterial =
            ds.getLast?.elim (w.passes self).lastBoundMaterial (fun d => some d.material.id)
        ∧ (w1.passes self).lastBoundMesh =
            ds.getLast?.elim (w.passes self).lastBoundMesh (fun d => some d.mesh.id) := by
  induction ds with
  | nil => intro w _; exact ⟨w, rfl, rfl, rfl, rfl, rfl, rfl⟩
  | cons d ds ih =>
    intro w hw
    have hw1 : (drawResult w self d.mesh d.modelTransform d.material).instance_ ≠ none := hw
    obtain ⟨w1, h1, h2, h3, h4, h5, h6⟩ := ih _ hw1
    refine ⟨w1, ?_, ?_, ?_, ?_, ?_, ?_⟩
    · simp only [RenderPass.drawAll, draw_eq w self d.mesh d.modelTransform d.material hw, h1]
    · rw [h2]; rfl
    · rw [h3, drawResult_pass]
    · rw [h4, drawResult_pass]
      cases ds with
      | nil => rfl
      | cons e es =>
        rw [List.getLast?_cons_cons]
        exact getLast?_elim_cons e es _ _ _
    · rw [h5, drawResult_pass]
      cases ds with
      | nil => rfl
      | cons e es =>
        rw [List.getLast?_cons_cons]
        exact getLast?_elim_cons e es _ _ _
    · rw [h6, drawResult_pass]
      cases ds with
      | nil => rfl
      | cons e es =>
        rw [List.getLast?_cons_cons]
        exact getLast?_elim_cons e es _ _ _

/-! ## C1: state-change counters -/

/-- C1: in a sequence of draws on one active pass whose cache starts unset, the draw `d`
that follows the draws `ds` raises `stateChangesMaterial` by exactly 1 when its material
identity differs from the one of the immediately preceding draw (or when it is the first
draw), and leaves it unchanged otherwise; the same holds, independently, for
`stateChangesMesh` with the mesh identity and for `stateChangesShader` with the identity of
the shader returned by `getShader`. -/
theorem draw_state_change_counters (w : World) (self : Nat) (ds : List DrawRequest)
    (d : DrawRequest) (hactive : w.instance_ ≠ none)
    (hshader : (w.passes self).lastBoundShader = none)
    (hmaterial : (w.passes self).lastBoundMaterial = none)
    (hmesh : (w.passes self).lastBoundMesh = none) :
    ∃ w1 w2, RenderPass.drawAll w self ds = Except.ok w1
      ∧ RenderPass.draw w1 self (some d.mesh) d.modelTransform d.material = Except.ok w2
      ∧ (w2.stats (w.passes self).renderStats).stateChangesMaterial
          = (w1.stats (w.passes self).renderStats).stateChangesMaterial
            + (if ds.getLast?.map (fun p => p.material.id) = some d.material.id then 0 else 1)
      ∧ (w2.stats (w.passes self).renderStats).stateChangesMesh
          = (w1.stats (w.passes self).renderStats).stateChangesMesh
            + (if ds.getLast?.map (fun p => p.mesh.id) = some d.mesh.id then 0 else 1)
      ∧ (w2.stats (w.passes self).renderStats).stateChangesShader
          = (w1.stats (w.passes self).renderStats).stateChangesShader
            + (if ds.getLast?.map (fun p => p.material.getShader.id)
                = some d.material.getShader.id then 0 else 1) := by
  obtain ⟨w1, h1, h2, h3, h4, h5, h6⟩ := drawAll_ok self ds w hactive
  have hw1 : w1.instance_ ≠ none := by rw [h2]; exact hactive
  refine ⟨w1, drawResult w1 self d.mesh d.modelTransform d.material, h1,
    draw_eq w1 self d.mesh d.modelTransform d.material hw1, ?_, ?_, ?_⟩
  · rw [← h3, drawResult_stats, drawStats, h5, hmaterial]
    cases ds.getLast? <;> simp
  · rw [← h3, drawResult_stats, drawStats, h6, hmesh]
    cases ds.getLast? <;> simp
  · rw [← h3, drawResult_stats, drawStats, h4, hshader]
    cases ds.getLast? <;> simp [Material.getShader]

/-- C1 at a concrete input: materials 10, 10, 11 on meshes 20, 21, 21, one shader. -/
theorem draw_state_change_counters_witness :
    (activeWorld false).instance_ ≠ none
    ∧ ∃ w1 w2, RenderPass.drawAll (activeWorld false) 1
          [⟨sampleTriangle 20, 1, sampleMaterial 10 30⟩,
           ⟨sampleQuad 21, 1, sampleMaterial 10 30⟩] = Except.ok w1
      ∧ RenderPass.draw w1 1 (some (sampleQuad 21)) 1 (sampleMaterial 11 30) = Except.ok w2
      ∧ (w2.stats 0).stateChangesMaterial = (w1.stats 0).stateChangesMaterial + 1
      ∧ (w2.stats 0).stateChangesMesh = (w1.stats 0).stateChangesMesh + 0
      ∧ (w2.stats 0).stateChangesShader = (w1.stats 0).stateChangesShader + 0 :=
  ⟨by simp [activeWorld],
    draw_state_change_counters (activeWorld false) 1
      [⟨sampleTriangle 20, 1, sampleMaterial 10 30⟩, ⟨sampleQuad 21, 1, sampleMaterial 10 30⟩]
      ⟨sampleQuad 21, 1, sampleMaterial 11 30⟩ (by simp [activeWorld]) rfl rfl rfl⟩

/-! ## Closed forms of `finish`, of the constructor and of `build` -/

theorem finish_eq (w : World) (self : Nat) (h : w.instance_ ≠ none) :
    RenderPass.finish w self = Except.ok
      { w with instance_ := none, trace := w.trace ++ finishEvents (w.passes self) } := by
  cases hi : w.instance_ with
  | none => exact absurd hi h
  | some a =>
    unfold RenderPass.finish
    by_cases hg : (w.passes self).gui <;>
    simp [hi, hg, World.emit, World.setInstance, finishEvents]

theorem finish_error (w : World) (self : Nat) (h : w.instance_ = none) :
    RenderPass.finish w self = Except.error w := by
  unfold RenderPass.finish
  simp [h]

theorem construct_eq (w : World) (self : Nat) (camera : Camera) (worldLights : Option Nat)
    (renderStats : Nat) (gui : Bool) :
    RenderPass.RenderPass w self camera worldLights renderStats gui
      = Except.ok (constructResult w self camera worldLights renderStats gui) := by
  unfold RenderPass.RenderPass
  cases hi : w.instance_ with
  | none =>
    simp [hi, World.setPass, World.emit, World.setInstance, constructResult, constructEvents,
      bind, Except.bind]
  | some a =>
    simp [hi, World.setPass, World.emit, World.setInstance, constructResult, constructEvents,
      bind, Except.bind]
    rw [finish_eq _ a (by simp [World.setPass, hi])]
    simp

theorem build_eq (b : RenderPassBuilder) (w : World) (self : Nat) :
    b.build w self = Except.ok
      (constructResult
        { w with trace := w.trace ++ clearEvents b
            ++ (if b.gui then [Event.ImGui_SRE_NewFrame] else []) }
        self b.camera b.worldLights b.renderStats b.gui) := by
  unfold RenderPassBuilder.build
  rw [← construct_eq]
  by_cases cc : b.clearColor = true <;> by_cases cd : b.clearDepth = true <;>
    by_cases cs : b.clearStencil = true <;> by_cases g : b.gui = true <;>
    simp [World.emit, clearEvents, clearMask, cc, cd, cs, g, GL_COLOR_BUFFER_BIT,
      GL_DEPTH_BUFFER_BIT, GL_STENCIL_BUFFER_BIT]

theorem setupShaderEvents_kind (p : RenderPass) (self : Nat) (M : mat4) (s : Shader) :
    ∀ e ∈ setupShaderEvents p self M s, e.isShaderSetup = true := by
  intro e he
  unfold setupShaderEvents at he
  split_ifs at he <;> simp at he <;> rcases he with rfl | rfl | rfl | rfl | rfl | rfl | rfl | rfl | rfl <;> rfl

/-- A recogniser that rejects every effect of `setupShader` finds nothing in its events. -/
theorem setupShaderEvents_filter (f : Event → Bool)
    (hf : ∀ e, e.isShaderSetup = true → f e = false) (p : RenderPass) (self : Nat) (M : mat4)
    (s : Shader) : (setupShaderEvents p self M s).filter f = [] := by
  rw [List.filter_eq_nil_iff]
  intro e he
  simp [hf e (setupShaderEvents_kind p self M s e he)]

theorem eventsSince_append (w1 w : World) (es : List Event) (h : w1.trace = w.trace ++ es) :
    w1.eventsSince w = es := by
  simp [World.eventsSince, h]

theorem drawCommand_isDrawCommand (mesh : Mesh) : (drawCommand mesh).isDrawCommand = true := by
  unfold drawCommand
  split_ifs <;> rfl

theorem drawEvents_drawCommands (p : RenderPass) (self : Nat) (mesh : Mesh) (M : mat4)
    (mat : Material) :
    (drawEvents p self mesh M mat).filter Event.isDrawCommand = [drawCommand mesh] := by
  have h := setupShaderEvents_filter Event.isDrawCommand
    (by intro e; cases e <;> simp [Event.isShaderSetup, Event.isDrawCommand]) p self M mat.shader
  unfold drawEvents drawCommand
  simp only [List.filter_append, h]
  split_ifs <;> simp [Event.isDrawCommand]

/-- C2: the constructor, called in any state, first initialises the members of the new
object (world `w0`); if a pass is active it then calls `finish` on exactly that pass, once,
leaving `instance` unset (world `w1`), and if none is active it does not call `finish`
(`w1 = w0`); only then come the viewport, the scissor rectangle and the registration of the
new pass.  The writes of `instance` made by the constructor are therefore the reset by the
single `finish` call (when a pass was active) followed by the registration, and afterwards
`instance` designates the new pass. -/
theorem construct_finishes_previous_once (w : World) (self : Nat) (camera : Camera)
    (worldLights : Option Nat) (renderStats : Nat) (gui : Bool) :
    ∃ w0 w1 w2,
      w0 = w.setPass self (RenderPass.init camera worldLights renderStats gui)
      ∧ (match w.instance_ with
          | some previous =>
              RenderPass.finish w0 previous = Except.ok w1 ∧ w1.instance_ = none
          | none => w1 = w0)
      ∧ RenderPass.RenderPass w self camera worldLights renderStats gui = Except.ok w2
      ∧ w2.trace = w1.trace ++
          [Event.glViewport camera.viewportX camera.viewportY camera.viewportWidth
            camera.viewportHeight,
           Event.glScissor camera.viewportX camera.viewportY camera.viewportWidth
            camera.viewportHeight,
           Event.setInstance (some self)]
      ∧ (w2.eventsSince w).filter Event.isInstanceWrite
          = (if w.instance_.isSome then [Event.setInstance none] else [])
            ++ [Event.setInstance (some self)]
      ∧ w2.instance_ = some self := by
  cases hi : w.instance_ with
  | none =>
    refine ⟨_, _, _, rfl, rfl, construct_eq w self camera worldLights renderStats gui, ?_, ?_, rfl⟩
    · simp [constructResult, constructEvents, hi, World.setPass]
    · rw [eventsSince_append _ w (constructEvents none self camera)
        (by simp [constructResult, hi])]
      simp [constructEvents, Event.isInstanceWrite]
  | some a =>
    have hne : (w.setPass self
        (RenderPass.init camera worldLights renderStats gui)).instance_ ≠ none := by
      simp [World.setPass, hi]
    refine ⟨_, _, _, rfl, ⟨finish_eq _ a hne, rfl⟩,
      construct_eq w self camera worldLights renderStats gui, ?_, ?_, rfl⟩
    · simp [constructResult, constructEvents, hi, World.setPass]
    · rw [eventsSince_append _ w _ (show (constructResult w self camera worldLights renderStats
        gui).trace = w.trace ++ _ from rfl)]
      simp only [hi, Option.map, constructEvents, finishEvents, Option.isSome_some,
        if_true]
      split_ifs <;> simp [Event.isInstanceWrite]

/-- The cast to `int` keeps a size below 2^31. -/
theorem intOfSize_of_lt (n : Nat) (h : n < 2 ^ 31) : intOfSize n = n := by
  have h1 : n % 2 ^ 32 = n := Nat.mod_eq_of_lt (by omega)
  unfold intOfSize
  rw [h1, if_pos h]

/-- The cast to `int` of a size below 2^31 is zero only for the size zero. -/
theorem intOfSize_eq_zero_iff (n : Nat) (h : n < 2 ^ 31) : intOfSize n = 0 ↔ n = 0 := by
  rw [intOfSize_of_lt n h]
  exact Int.natCast_eq_zero

/-- C3 (amended): a successful `draw` of a mesh whose index list has fewer than 2^31 entries
issues exactly one draw command, as its last effect: for an empty index list it is
`glDrawArrays` with the topology of the mesh, first vertex 0 and the vertex count of the
mesh; for `N > 0` indices it is `glDrawElements` with the topology of the mesh, count `N`,
index type `GL_UNSIGNED_SHORT` and offset 0. -/
theorem draw_issues_one_draw_command (w w1 : World) (self : Nat) (mesh : Mesh) (M : mat4)
    (material : Material) (h : RenderPass.draw w self (some mesh) M material = Except.ok w1)
    (hN : mesh.getIndices.length < 2 ^ 31) :
    ∃ before,
      w1.eventsSince w = before ++
        [if mesh.getIndices.length = 0 then
            Event.glDrawArrays mesh.getMeshTopology 0 mesh.getVertexCount
          else
            Event.glDrawElements mesh.getMeshTopology mesh.getIndices.length
              IndexType.GL_UNSIGNED_SHORT 0]
      ∧ before.filter Event.isDrawCommand = [] := by
  have hactive : w.instance_ ≠ none := by
    intro hn
    simp [RenderPass.draw, hn] at h
  rw [draw_eq w self mesh M material hactive] at h
  injection h with h
  subst h
  rw [eventsSince_append _ w _ (drawResult_trace w self mesh M material)]
  have hN1 : mesh.indices.length < 2 ^ 31 := hN
  have hcmd : (if mesh.getIndices.length = 0 then
        Event.glDrawArrays mesh.getMeshTopology 0 mesh.getVertexCount
      else
        Event.glDrawElements mesh.getMeshTopology mesh.getIndices.length
          IndexType.GL_UNSIGNED_SHORT 0) = drawCommand mesh := by
    simp only [drawCommand, Mesh.getIndices, Mesh.getMeshTopology, Mesh.getVertexCount,
      intOfSize_of_lt _ hN1]
    by_cases h0 : mesh.indices.length = 0 <;> simp [h0]
  rw [hcmd]
  refine ⟨_, rfl, ?_⟩
  have hall := drawEvents_drawCommands (w.passes self) self mesh M material
  unfold drawEvents at hall
  rw [List.filter_append] at hall
  simpa [drawCommand_isDrawCommand] using hall

/-- C3 (amended) at a concrete input: a quad with six indices. -/
theorem draw_issues_one_draw_command_witness :
    RenderPass.draw (activeWorld false) 1 (some (sampleQuad 21)) 1 (sampleMaterial 10 30)
        = Except.ok (drawResult (activeWorld false) 1 (sampleQuad 21) 1 (sampleMaterial 10 30))
    ∧ (sampleQuad 21).getIndices.length < 2 ^ 31
    ∧ ∃ before,
      (drawResult (activeWorld false) 1 (sampleQuad 21) 1
          (sampleMaterial 10 30)).eventsSince (activeWorld false)
        = before ++ [if (sampleQuad 21).getIndices.length = 0 then
            Event.glDrawArrays (sampleQuad 21).getMeshTopology 0 (sampleQuad 21).getVertexCount
          else
            Event.glDrawElements (sampleQuad 21).getMeshTopology
              (sampleQuad 21).getIndices.length IndexType.GL_UNSIGNED_SHORT 0]
      ∧ before.filter Event.isDrawCommand = [] :=
  ⟨draw_eq _ _ _ _ _ (by simp [activeWorld]), by decide,
    draw_issues_one_draw_command (activeWorld false) _ 1 (sampleQuad 21) 1 (sampleMaterial 10 30)
      (draw_eq _ _ _ _ _ (by simp [activeWorld])) (by decide)⟩

/-- C3 as stated fails: a mesh whose index list has 2^32 entries (so `N > 0`) is drawn with
the non-indexed `glDrawArrays`, because the cast of the index count to `int` yields 0. -/
theorem draw_huge_index_list_not_indexed :
    (hugeIndexMesh 22).getIndices.length = 2 ^ 32
    ∧ ∃ w1, RenderPass.draw (activeWorld false) 1 (some (hugeIndexMesh 22)) 1
          (sampleMaterial 10 30) = Except.ok w1
      ∧ (w1.eventsSince (activeWorld false)).filter Event.isDrawCommand
          = [Event.glDrawArrays 4 0 3] := by
  have hlen : (hugeIndexMesh 22).indices.length = 2 ^ 32 := by
    simp only [hugeIndexMesh, List.length_replicate]
  refine ⟨hlen, _, draw_eq _ _ _ _ _ (by simp [activeWorld]), ?_⟩
  rw [eventsSince_append _ (activeWorld false) _ (drawResult_trace _ _ _ _ _),
    drawEvents_drawCommands]
  have hzero : intOfSize (2 ^ 32) = 0 := by decide
  simp only [drawCommand, hlen, hzero, if_true]
  rfl

/-! ## C4 and C5: the clear of `build` and the overlay of `finish` -/

theorem constructEvents_noClear (previous : Option RenderPass) (self : Nat) (camera : Camera) :
    (constructEvents previous self camera).filter Event.isClearCall = []
    ∧ (constructEvents previous self camera).filter Event.isDrawCommand = []
    ∧ (constructEvents previous self camera).getLast? = some (Event.setInstance (some self)) := by
  unfold constructEvents finishEvents
  cases previous with
  | none => simp [Event.isClearCall, Event.isDrawCommand]
  | some p => by_cases hg : p.gui <;> simp [hg, Event.isClearCall, Event.isDrawCommand]

/-- C4: `build` always returns, and its events start with the clear-value programming of
each enabled kind (color; depth with the depth-write enable; stencil), followed, when at
least one kind is enabled, by one `glClear` whose mask is the union of the enabled buffer
bits; the remaining events `rest` contain no clear call and no draw command and end with the
registration of the new pass, so there is at most one clear, it precedes the existence of
the pass, and with no kind enabled there is neither a clear nor a clear value.  In
particular a builder with clear-color enabled at (0,0,0,1) and the other clears disabled
programs that color and clears the color buffer only. -/
theorem build_clears_once (b : RenderPassBuilder) (w : World) (self : Nat) :
    (∃ w1 rest, b.build w self = Except.ok w1
      ∧ w1.eventsSince w =
          (if b.clearColor then
            [Event.glClearColor b.clearColorValue.r b.clearColorValue.g b.clearColorValue.b
              b.clearColorValue.a] else [])
          ++ (if b.clearDepth then
            [Event.glClearDepthf b.clearDepthValue, Event.glDepthMask true] else [])
          ++ (if b.clearStencil then [Event.glClearStencil b.clearStencilValue] else [])
          ++ (if b.clearColor || b.clearDepth || b.clearStencil then
            [Event.glClear
              ((if b.clearColor then GL_COLOR_BUFFER_BIT else 0)
                ||| (if b.clearDepth then GL_DEPTH_BUFFER_BIT else 0)
                ||| (if b.clearStencil then GL_STENCIL_BUFFER_BIT else 0))] else [])
          ++ rest
      ∧ rest.filter Event.isClearCall = []
      ∧ rest.filter Event.isDrawCommand = []
      ∧ rest.getLast? = some (Event.setInstance (some self)))
    ∧ (∀ (depth : ℚ) (stencil : Int), ∃ w1 rest,
        (((b.withClearColor true ⟨0, 0, 0, 1⟩).withClearDepth false depth).withClearStencil
          false stencil).build w self = Except.ok w1
        ∧ w1.eventsSince w =
            [Event.glClearColor 0 0 0 1, Event.glClear GL_COLOR_BUFFER_BIT] ++ rest
        ∧ rest.filter Event.isClearCall = []
        ∧ rest.filter Event.isDrawCommand = []) := by
  have key : ∀ b : RenderPassBuilder, ∃ w1 rest, b.build w self = Except.ok w1
      ∧ w1.eventsSince w = clearEvents b ++ rest
      ∧ rest.filter Event.isClearCall = []
      ∧ rest.filter Event.isDrawCommand = []
      ∧ rest.getLast? = some (Event.setInstance (some self)) := by
    intro b
    obtain ⟨h1, h2, h3⟩ := constructEvents_noClear
      (w.instance_.map (Function.update w.passes self
        (RenderPass.init b.camera b.worldLights b.renderStats b.gui))) self b.camera
    refine ⟨_, (if b.gui then [Event.ImGui_SRE_NewFrame] else []) ++ constructEvents
      (w.instance_.map (Function.update w.passes self
        (RenderPass.init b.camera b.worldLights b.renderStats b.gui))) self b.camera,
      build_eq b w self, ?_, ?_, ?_, ?_⟩
    · apply eventsSince_append
      simp [constructResult]
    · rw [List.filter_append, h1]
      split_ifs <;> simp [Event.isClearCall]
    · rw [List.filter_append, h2]
      split_ifs <;> simp [Event.isDrawCommand]
    · rw [List.getLast?_append, h3]
      rfl
  constructor
  · obtain ⟨w1, rest, h1, h2, h3, h4, h5⟩ := key b
    exact ⟨w1, rest, h1, by rw [h2]; rfl, h3, h4, h5⟩
  · intro depth stencil
    obtain ⟨w1, rest, h1, h2, h3, h4, _⟩ := key
      (((b.withClearColor true ⟨0, 0, 0, 1⟩).withClearDepth false depth).withClearStencil
        false stencil)
    refine ⟨w1, rest, h1, ?_, h3, h4⟩
    rw [h2]
    simp [clearEvents, clearMask, RenderPassBuilder.withClearColor,
      RenderPassBuilder.withClearDepth, RenderPassBuilder.withClearStencil]

/-- C5: on any pass object `p`, while some pass is active, `finish` succeeds; when the gui
flag of `p` is set it emits exactly one `ImGui::Render` and emits it before the write that
unsets `instance`; when the flag is not set it emits no `ImGui::Render`; in both cases
`instance` is unset afterwards. -/
theorem finish_overlay_then_reset (w : World) (p : Nat) (hactive : w.instance_ ≠ none) :
    ∃ w1, RenderPass.finish w p = Except.ok w1
      ∧ w1.instance_ = none
      ∧ w1.eventsSince w
          = (if (w.passes p).gui then [Event.ImGui_Render] else []) ++ [Event.setInstance none] :=
  ⟨_, finish_eq w p hactive, rfl, eventsSince_append _ w _ rfl⟩

/-- C5 at a concrete input: the active pass at address 1 was built with the gui flag. -/
theorem finish_overlay_then_reset_witness :
    (activeWorld true).instance_ ≠ none
    ∧ ∃ w1, RenderPass.finish (activeWorld true) 1 = Except.ok w1
      ∧ w1.instance_ = none
      ∧ w1.eventsSince (activeWorld true) = [Event.ImGui_Render, Event.setInstance none] :=
  ⟨by simp [activeWorld], finish_overlay_then_reset (activeWorld true) 1 (by simp [activeWorld])⟩

/-! ## C6: the shared resources of `drawLines` -/

theorem drawEvents_materialBinds (p : RenderPass) (self : Nat) (mesh : Mesh) (M : mat4)
    (mat : Material) :
    (drawEvents p self mesh M mat).countP Event.isMaterialBind
      = if p.lastBoundMaterial = some mat.id then 0 else 1 := by
  have h := setupShaderEvents_filter Event.isMaterialBind
    (by intro e; cases e <;> simp [Event.isShaderSetup, Event.isMaterialBind]) p self M mat.shader
  unfold drawEvents drawCommand
  simp only [List.countP_eq_length_filter, List.filter_append, h]
  split_ifs <;> simp [Event.isMaterialBind]

theorem drawEvents_meshBinds (p : RenderPass) (self : Nat) (mesh : Mesh) (M : mat4)
    (mat : Material) :
    (drawEvents p self mesh M mat).countP Event.isMeshBind
      = if p.lastBoundMesh = some mesh.id then 0 else 1 := by
  have h := setupShaderEvents_filter Event.isMeshBind
    (by intro e; cases e <;> simp [Event.isShaderSetup, Event.isMeshBind]) p self M mat.shader
  unfold drawEvents drawCommand
  simp only [List.countP_eq_length_filter, List.filter_append, h]
  split_ifs <;> simp [Event.isMeshBind]

/-- A successful `drawLines` is one `draw` of the shared mesh with the shared material. -/
theorem drawLines_eq (w : World) (self : Nat) (verts : List vec3) (color : vec4)
    (meshTopology : MeshTopology) (h : w.instance_ ≠ none) :
    RenderPass.drawLines w self verts color meshTopology = Except.ok
      (drawResult
        { w with
          linesMaterial := some (linesMaterialNow w color),
          linesMesh := some (linesMeshNow w verts meshTopology) }
        self (linesMeshNow w verts meshTopology) mat4One (linesMaterialNow w color)) := by
  cases hi : w.instance_ with
  | none => exact absurd hi h
  | some a =>
    unfold RenderPass.drawLines
    simp only [hi]
    rw [draw_eq _ _ _ _ _ (by simp [hi])]
    rfl

/-- Once the shared resources exist and are the ones cached by the pass, further
`drawLines` calls bind neither the material nor the mesh. -/
theorem drawLinesAll_bound (self : Nat) (mid meid : Nat) (reqs : List LinesRequest) :
    ∀ w : World, w.instance_ ≠ none →
      (∃ m, w.linesMaterial = some m ∧ m.id = mid) →
      (∃ m, w.linesMesh = some m ∧ m.id = meid) →
      (w.passes self).lastBoundMaterial = some mid →
      (w.passes self).lastBoundMesh = some meid →
      ∃ w1 es, RenderPass.drawLinesAll w self reqs = Except.ok w1
        ∧ w1.trace = w.trace ++ es
        ∧ es.countP Event.isMaterialBind = 0
        ∧ es.countP Event.isMeshBind = 0 := by
  induction reqs with
  | nil => intro w _ _ _ _ _; exact ⟨w, [], rfl, by simp, rfl, rfl⟩
  | cons d ds ih =>
    intro w hw hmat hmesh hcm hcme
    obtain ⟨m, hm, hmid⟩ := hmat
    obtain ⟨me, hme, hmeid⟩ := hmesh
    have hmat1 : (linesMaterialNow w d.color).id = mid := by
      simp [linesMaterialNow, hm, Material.setColor, hmid]
    have hmesh1 : (linesMeshNow w d.verts d.meshTopology).id = meid := by
      simp [linesMeshNow, hme, Mesh.updatePositions, hmeid]
    obtain ⟨w1, es, h1, h2, h3, h4⟩ := ih
      (drawResult
        { w with
          linesMaterial := some (linesMaterialNow w d.color),
          linesMesh := some (linesMeshNow w d.verts d.meshTopology) }
        self (linesMeshNow w d.verts d.meshTopology) mat4One (linesMaterialNow w d.color))
      hw ⟨_, rfl, hmat1⟩ ⟨_, rfl, hmesh1⟩
      (by rw [drawResult_pass, hmat1]) (by rw [drawResult_pass, hmesh1])
    refine ⟨w1, drawEvents (w.passes self) self (linesMeshNow w d.verts d.meshTopology) mat4One
      (linesMaterialNow w d.color) ++ es, ?_, ?_, ?_, ?_⟩
    · simp only [RenderPass.drawLinesAll, drawLines_eq w self d.verts d.color d.meshTopology hw,
        h1]
    · rw [h2, drawResult_trace, List.append_assoc]
    · rw [List.countP_append, h3, drawEvents_materialBinds]
      simp [hcm, hmat1]
    · rw [List.countP_append, h4, drawEvents_meshBinds]
      simp [hcme, hmesh1]

/-- C6: any number of consecutive `drawLines` calls on a pass, while a pass is active, all
succeed, and across all of them `material->bind()` is called at most once and
`mesh->bind(shader)` at most once. -/
theorem drawLines_binds_at_most_once (w : World) (self : Nat) (reqs : List LinesRequest)
    (hactive : w.instance_ ≠ none) :
    ∃ w1, RenderPass.drawLinesAll w self reqs = Except.ok w1
      ∧ (w1.eventsSince w).countP Event.isMaterialBind ≤ 1
      ∧ (w1.eventsSince w).countP Event.isMeshBind ≤ 1 := by
  cases reqs with
  | nil => exact ⟨w, rfl, by simp [World.eventsSince], by simp [World.eventsSince]⟩
  | cons d ds =>
    obtain ⟨w1, es, h1, h2, h3, h4⟩ := drawLinesAll_bound self
      (linesMaterialNow w d.color).id (linesMeshNow w d.verts d.meshTopology).id ds
      (drawResult
        { w with
          linesMaterial := some (linesMaterialNow w d.color),
          linesMesh := some (linesMeshNow w d.verts d.meshTopology) }
        self (linesMeshNow w d.verts d.meshTopology) mat4One (linesMaterialNow w d.color))
      hactive ⟨_, rfl, rfl⟩ ⟨_, rfl, rfl⟩
      (by rw [drawResult_pass]) (by rw [drawResult_pass])
    refine ⟨w1, ?_, ?_, ?_⟩
    · simp only [RenderPass.drawLinesAll,
        drawLines_eq w self d.verts d.color d.meshTopology hactive, h1]
    · rw [eventsSince_append w1 w (drawEvents (w.passes self) self
          (linesMeshNow w d.verts d.meshTopology) mat4One (linesMaterialNow w d.color) ++ es)
          (by rw [h2, drawResult_trace, List.append_assoc]),
        List.countP_append, h3, drawEvents_materialBinds]
      split_ifs <;> simp
    · rw [eventsSince_append w1 w (drawEvents (w.passes self) self
          (linesMeshNow w d.verts d.meshTopology) mat4One (linesMaterialNow w d.color) ++ es)
          (by rw [h2, drawResult_trace, List.append_assoc]),
        List.countP_append, h4, drawEvents_meshBinds]
      split_ifs <;> simp

/-- C6 at a concrete input: three calls with different vertex lists, colors and topologies
on the active pass at address 1. -/
theorem drawLines_binds_at_most_once_witness :
    (activeWorld false).instance_ ≠ none
    ∧ ∃ w1, RenderPass.drawLinesAll (activeWorld false) 1
          [⟨[⟨0, 0, 0⟩, ⟨1, 0, 0⟩], ⟨1, 0, 0, 1⟩, 1⟩,
           ⟨[⟨0, 0, 0⟩, ⟨0, 1, 0⟩, ⟨0, 0, 1⟩], ⟨0, 1, 0, 1⟩, 3⟩,
           ⟨[], ⟨0, 0, 1, 1⟩, 1⟩] = Except.ok w1
      ∧ (w1.eventsSince (activeWorld false)).countP Event.isMaterialBind ≤ 1
      ∧ (w1.eventsSince (activeWorld false)).countP Event.isMeshBind ≤ 1 :=
  ⟨by simp [activeWorld],
    drawLines_binds_at_most_once (activeWorld false) 1
      [⟨[⟨0, 0, 0⟩, ⟨1, 0, 0⟩], ⟨1, 0, 0, 1⟩, 1⟩,
       ⟨[⟨0, 0, 0⟩, ⟨0, 1, 0⟩, ⟨0, 0, 1⟩], ⟨0, 1, 0, 1⟩, 3⟩,
       ⟨[], ⟨0, 0, 1, 1⟩, 1⟩] (by simp [activeWorld])⟩

/-! ## C7: the two normal matrices -/

/-- The matrix computed by `inverse` is the inverse whenever the determinant is not zero. -/
theorem inverse_mul_self (m : mat3) (h : determinant m ≠ 0) : inverse m * m = 1 := by
  have hd : m 0 0 * (m 1 1 * m 2 2 - m 1 2 * m 2 1)
    - m 0 1 * (m 1 0 * m 2 2 - m 1 2 * m 2 0)
    + m 0 2 * (m 1 0 * m 2 1 - m 1 1 * m 2 0) ≠ 0 := h
  ext i j
  fin_cases i <;> fin_cases j <;>
    simp [inverse, determinant, Matrix.mul_apply, Fin.sum_univ_three, Matrix.one_apply] <;>
    field_simp <;> ring

/-- For an affine model transform (bottom row `(0, 0, 0, _)`) the 3x3 block of the product is
the product of the 3x3 blocks, so both branches of `setupShader` compute the same normal
matrix. -/
theorem normalMatrix_eq_of_affine (camera : Camera) (M : mat4)
    (h0 : M 3 0 = 0) (h1 : M 3 1 = 0) (h2 : M 3 2 = 0) :
    normalMatrixSameShader camera M = normalMatrixOtherShader camera M := by
  have hblock : toMat3 (camera.getViewTransform * M)
      = toMat3 camera.getViewTransform * toMat3 M := by
    ext i j
    fin_cases i <;> fin_cases j <;>
      simp [toMat3, Matrix.mul_apply, Fin.sum_univ_four, Fin.sum_univ_three, h0, h1, h2]
  unfold normalMatrixSameShader normalMatrixOtherShader
  rw [hblock]

/-- C7: the two branches of `setupShader` do not compute the same normal matrix for every
model transform.  With the view transform a translation by (1, 0, 0) and the model
transform of bottom row (1, 0, 0, 1), both 3x3 matrices are invertible, the branch for the
bound shader (line 138) yields 1/2 in row 0, column 0, and the branch for a new shader
(line 155) yields 1 there. -/
theorem normal_matrix_branches_differ :
    determinant (toMat3 (translatedCamera.getViewTransform * projectiveModel)) = 2
    ∧ determinant (toMat3 translatedCamera.getViewTransform * toMat3 projectiveModel) = 1
    ∧ normalMatrixSameShader translatedCamera projectiveModel 0 0 = 1 / 2
    ∧ normalMatrixOtherShader translatedCamera projectiveModel 0 0 = 1
    ∧ normalMatrixSameShader translatedCamera projectiveModel
        ≠ normalMatrixOtherShader translatedCamera projectiveModel := by
  have hvm : toMat3 (translatedCamera.getViewTransform * projectiveModel)
      = !![2, 0, 0; 0, 1, 0; 0, 0, 1] := by
    ext i j
    fin_cases i <;> fin_cases j <;>
      simp [toMat3, translatedCamera, projectiveModel, Camera.getViewTransform,
        Matrix.mul_apply, Fin.sum_univ_four] <;> first | rfl | norm_num
  have hv : toMat3 translatedCamera.getViewTransform * toMat3 projectiveModel
      = !![1, 0, 0; 0, 1, 0; 0, 0, 1] := by
    ext i j
    fin_cases i <;> fin_cases j <;>
      simp [toMat3, translatedCamera, projectiveModel, Camera.getViewTransform,
        Matrix.mul_apply, Fin.sum_univ_three]
    all_goals rfl
  have h1 : normalMatrixSameShader translatedCamera projectiveModel 0 0 = 1 / 2 := by
    simp [normalMatrixSameShader, hvm, transpose, inverse, determinant]
  have h2 : normalMatrixOtherShader translatedCamera projectiveModel 0 0 = 1 := by
    simp [normalMatrixOtherShader, hv, transpose, inverse, determinant]
  refine ⟨?_, ?_, h1, h2, ?_⟩
  · rw [hvm]; simp [determinant]
  · rw [hv]; simp [determinant]
  · intro h
    rw [h, h2] at h1
    norm_num at h1

/-! ## C8: the precondition of `draw` and `finish` -/

/-- C8: for a non-null mesh, `draw` fails if and only if `instance` is unset, and so does
`finish`; the world at the failed assertion is the world before the call, so no counter, no
cache slot and no trace entry has changed; and a `finish` that directly follows a successful
`finish` fails. -/
theorem draw_finish_fail_iff_inactive (w : World) (p : Nat) (mesh : Mesh) (M : mat4)
    (material : Material) :
    ((∃ e, RenderPass.draw w p (some mesh) M material = Except.error e) ↔ w.instance_ = none)
    ∧ ((∃ e, RenderPass.finish w p = Except.error e) ↔ w.instance_ = none)
    ∧ (∀ e, RenderPass.draw w p (some mesh) M material = Except.error e → e = w)
    ∧ (∀ e, RenderPass.finish w p = Except.error e → e = w)
    ∧ (∀ w1 q, RenderPass.finish w p = Except.ok w1 →
        RenderPass.finish w1 q = Except.error w1) := by
  by_cases hi : w.instance_ = none
  · have hd : RenderPass.draw w p (some mesh) M material = Except.error w := by
      simp [RenderPass.draw, hi]
    have hf : RenderPass.finish w p = Except.error w := finish_error w p hi
    refine ⟨⟨fun _ => hi, fun _ => ⟨w, hd⟩⟩, ⟨fun _ => hi, fun _ => ⟨w, hf⟩⟩, ?_, ?_, ?_⟩
    · intro e he
      rw [hd] at he
      injection he with he
      exact he.symm
    · intro e he
      rw [hf] at he
      injection he with he
      exact he.symm
    · intro w1 q h
      rw [hf] at h
      cases h
  · have hd := draw_eq w p mesh M material hi
    have hf := finish_eq w p hi
    refine ⟨⟨?_, fun h => absurd h hi⟩, ⟨?_, fun h => absurd h hi⟩, ?_, ?_, ?_⟩
    · rintro ⟨e, he⟩
      rw [hd] at he
      cases he
    · rintro ⟨e, he⟩
      rw [hf] at he
      cases he
    · intro e he
      rw [hd] at he
      cases he
    · intro e he
      rw [hf] at he
      cases he
    · intro w1 q h
      rw [hf] at h
      injection h with h
      subst h
      exact finish_error _ q rfl

/-- C8 at a concrete input: with no active pass both calls fail in the unchanged world, and
after one `finish` of the active pass a second `finish` fails. -/
theorem draw_finish_fail_iff_inactive_witness :
    (∃ e, RenderPass.draw idleWorld 1 (some (sampleQuad 21)) 1 (sampleMaterial 10 30)
      = Except.error e)
    ∧ (∃ e, RenderPass.finish idleWorld 1 = Except.error e)
    ∧ (∀ w1 q, RenderPass.finish (activeWorld true) 1 = Except.ok w1 →
        RenderPass.finish w1 q = Except.error w1) :=
  ⟨(draw_finish_fail_iff_inactive idleWorld 1 (sampleQuad 21) 1 (sampleMaterial 10 30)).1.mpr rfl,
    (draw_finish_fail_iff_inactive idleWorld 1 (sampleQuad 21) 1
      (sampleMaterial 10 30)).2.1.mpr rfl,
    (draw_finish_fail_iff_inactive (activeWorld true) 1 (sampleQuad 21) 1
      (sampleMaterial 10 30)).2.2.2.2⟩

/-! ## C9: the uploads of `setupShader` -/

/-- C9: when the shader is the one cached as bound, `setupShader` emits only the upload of
the model matrix and then the upload of the normal matrix, each if and only if its location
is not -1, and changes neither the shader counter nor the cache; otherwise it increments
`stateChangesShader` once, writes the cache, binds the shader, uploads in the order model,
view, projection, normal and viewport descriptor (width, height, x, y), each if and only if
its location is not -1, and ends with one lighting upload with the world lights and the
view transform. -/
theorem setupShader_uploads (w : World) (self : Nat) (M : mat4) (shader : Shader) :
    (RenderPass.setupShader w self M shader).eventsSince w
      = (if (w.passes self).lastBoundShader = some shader.id then
          (if shader.uniformLocationModel ≠ -1 then
            [Event.glUniformMatrix4fv shader.uniformLocationModel 1 false
              (MatrixValue.ofMat4 M)] else [])
          ++ (if shader.uniformLocationNormal ≠ -1 then
            [Event.glUniformMatrix4fv shader.uniformLocationNormal 1 false
              (MatrixValue.ofMat3 (normalMatrixSameShader (w.passes self).camera M))] else [])
        else
          [Event.incStateChangesShader (w.passes self).renderStats,
            Event.setLastBoundShader self shader.id,
            Event.shaderBind shader.id]
          ++ (if shader.uniformLocationModel ≠ -1 then
            [Event.glUniformMatrix4fv shader.uniformLocationModel 1 false
              (MatrixValue.ofMat4 M)] else [])
          ++ (if shader.uniformLocationView ≠ -1 then
            [Event.glUniformMatrix4fv shader.uniformLocationView 1 false
              (MatrixValue.ofMat4 (w.passes self).camera.viewTransform)] else [])
          ++ (if shader.uniformLocationProjection ≠ -1 then
            [Event.glUniformMatrix4fv shader.uniformLocationProjection 1 false
              (MatrixValue.ofMat4 (w.passes self).camera.projectionTransform)] else [])
          ++ (if shader.uniformLocationNormal ≠ -1 then
            [Event.glUniformMatrix3fv shader.uniformLocationNormal 1 false
              (MatrixValue.ofMat3 (normalMatrixOtherShader (w.passes self).camera M))] else [])
          ++ (if shader.uniformLocationViewport ≠ -1 then
            [Event.glUniform4fv shader.uniformLocationViewport 1
              ⟨(w.passes self).camera.viewportWidth, (w.passes self).camera.viewportHeight,
                (w.passes self).camera.viewportX, (w.passes self).camera.viewportY⟩] else [])
          ++ [Event.setLights shader.id (w.passes self).worldLights
              (w.passes self).camera.getViewTransform])
    ∧ ((RenderPass.setupShader w self M shader).stats
          (w.passes self).renderStats).stateChangesShader
        = (w.stats (w.passes self).renderStats).stateChangesShader
          + (if (w.passes self).lastBoundShader = some shader.id then 0 else 1)
    ∧ ((RenderPass.setupShader w self M shader).passes self).lastBoundShader
        = some shader.id := by
  refine ⟨?_, ?_, ?_⟩
  · rw [eventsSince_append _ w _ (setupShader_trace w self M shader)]
    rfl
  · rw [setupShader_stats]
    split_ifs <;> simp
  · rw [setupShader_passes]
    simp

/-! ## C10: the order of the effects of `build` -/

theorem setupShaderEvents_cache (p : RenderPass) (self : Nat) (M : mat4) (s : Shader) :
    (setupShaderEvents p self M s).filter (fun e => e.isCacheWrite || e.isBind)
      = if p.lastBoundShader = some s.id then []
        else [Event.setLastBoundShader self s.id, Event.shaderBind s.id] := by
  unfold setupShaderEvents
  split_ifs <;> simp [List.filter_cons, Event.isCacheWrite, Event.isBind]

theorem drawEvents_cache (p : RenderPass) (self : Nat) (mesh : Mesh) (M : mat4)
    (mat : Material) :
    (drawEvents p self mesh M mat).filter (fun e => e.isCacheWrite || e.isBind)
      = (if p.lastBoundShader = some mat.shader.id then []
          else [Event.setLastBoundShader self mat.shader.id, Event.shaderBind mat.shader.id])
        ++ (if p.lastBoundMaterial = some mat.id then []
          else [Event.setLastBoundMaterial self mat.id, Event.materialBind mat.id])
        ++ (if p.lastBoundMesh = some mesh.id then []
          else [Event.setLastBoundMesh self mesh.id, Event.meshBind mesh.id mat.shader.id]) := by
  unfold drawEvents drawCommand
  simp only [List.filter_append, setupShaderEvents_cache]
  split_ifs <;> simp [List.filter_cons, Event.isCacheWrite, Event.isBind]

/-- A successful `draw` returns the closed form `drawResult`. -/
theorem draw_ok_eq (w w1 : World) (self : Nat) (mesh : Mesh) (M : mat4) (material : Material)
    (h : RenderPass.draw w self (some mesh) M material = Except.ok w1) :
    w.instance_ ≠ none ∧ w1 = drawResult w self mesh M material := by
  have hactive : w.instance_ ≠ none := by
    intro hn
    simp [RenderPass.draw, hn] at h
  rw [draw_eq w self mesh M material hactive] at h
  injection h with h
  exact ⟨hactive, h.symm⟩

/-- C11: a newly constructed pass has its three cache slots unset; `finish` changes no pass
object, hence no slot; and after a successful `draw` the shader slot holds the identity of
the shader of the material, the material slot the identity of the material and the mesh
slot the identity of the mesh, where the slot writes and binds of that draw are exactly
those of the kinds whose submitted identity differs from the value cached before the
draw, each write followed by its bind. -/
theorem cache_slots_invariant (w : World) (self p : Nat) (camera : Camera)
    (worldLights : Option Nat) (renderStats : Nat) (gui : Bool) (mesh : Mesh) (M : mat4)
    (material : Material) :
    (∃ w1, RenderPass.RenderPass w self camera worldLights renderStats gui = Except.ok w1
      ∧ (w1.passes self).lastBoundShader = none
      ∧ (w1.passes self).lastBoundMaterial = none
      ∧ (w1.passes self).lastBoundMesh = none)
    ∧ (∀ w1, RenderPass.finish w p = Except.ok w1 → w1.passes = w.passes)
    ∧ (∀ w1, RenderPass.draw w self (some mesh) M material = Except.ok w1 →
        (w1.passes self).lastBoundShader = some material.getShader.id
        ∧ (w1.passes self).lastBoundMaterial = some material.id
        ∧ (w1.passes self).lastBoundMesh = some mesh.id
        ∧ (w1.eventsSince w).filter (fun e => e.isCacheWrite || e.isBind)
            = (if (w.passes self).lastBoundShader = some material.getShader.id then []
                else [Event.setLastBoundShader self material.getShader.id,
                  Event.shaderBind material.getShader.id])
              ++ (if (w.passes self).lastBoundMaterial = some material.id then []
                else [Event.setLastBoundMaterial self material.id,
                  Event.materialBind material.id])
              ++ (if (w.passes self).lastBoundMesh = some mesh.id then []
                else [Event.setLastBoundMesh self mesh.id,
                  Event.meshBind mesh.id material.getShader.id])) := by
  refine ⟨⟨_, construct_eq w self camera worldLights renderStats gui, ?_, ?_, ?_⟩, ?_, ?_⟩
  · simp [constructResult, RenderPass.init]
  · simp [constructResult, RenderPass.init]
  · simp [constructResult, RenderPass.init]
  · intro w1 h
    have hactive : w.instance_ ≠ none := by
      intro hn
      rw [finish_error w p hn] at h
      cases h
    rw [finish_eq w p hactive] at h
    injection h with h
    subst h
    rfl
  · intro w1 h
    obtain ⟨_, rfl⟩ := draw_ok_eq w w1 self mesh M material h
    refine ⟨?_, ?_, ?_, ?_⟩
    · rw [drawResult_pass]; rfl
    · rw [drawResult_pass]
    · rw [drawResult_pass]
    · rw [eventsSince_append _ w _ (drawResult_trace w self mesh M material), drawEvents_cache]
      rfl

/-- C11 at a concrete input: the first draw on a fresh pass writes and binds all three
kinds. -/
theorem cache_slots_invariant_witness :
    RenderPass.draw (activeWorld false) 1 (some (sampleQuad 21)) 1 (sampleMaterial 10 30)
        = Except.ok (drawResult (activeWorld false) 1 (sampleQuad 21) 1 (sampleMaterial 10 30))
    ∧ ((drawResult (activeWorld false) 1 (sampleQuad 21) 1
          (sampleMaterial 10 30)).passes 1).lastBoundShader = some 30
    ∧ ((drawResult (activeWorld false) 1 (sampleQuad 21) 1
          (sampleMaterial 10 30)).passes 1).lastBoundMaterial = some 10
    ∧ ((drawResult (activeWorld false) 1 (sampleQuad 21) 1
          (sampleMaterial 10 30)).passes 1).lastBoundMesh = some 21 :=
  ⟨draw_eq _ _ _ _ _ (by simp [activeWorld]),
    ((cache_slots_invariant (activeWorld false) 1 1 sampleCamera none 0 false (sampleQuad 21) 1
      (sampleMaterial 10 30)).2.2 _ (draw_eq _ _ _ _ _ (by simp [activeWorld]))).1,
    ((cache_slots_invariant (activeWorld false) 1 1 sampleCamera none 0 false (sampleQuad 21) 1
      (sampleMaterial 10 30)).2.2 _ (draw_eq _ _ _ _ _ (by simp [activeWorld]))).2.1,
    ((cache_slots_invariant (activeWorld false) 1 1 sampleCamera none 0 false (sampleQuad 21) 1
      (sampleMaterial 10 30)).2.2 _ (draw_eq _ _ _ _ _ (by simp [activeWorld]))).2.2.1⟩

/-! ## C12: draw calls and draw commands in call order -/

/-- A sequence of draws on an active pass appends its events to the trace, one draw command
per request in call order, and raises `drawCalls` by the number of requests. -/
theorem drawAll_trace (self : Nat) (ds : List DrawRequest) :
    ∀ w : World, w.instance_ ≠ none →
      ∃ w1 es, RenderPass.drawAll w self ds = Except.ok w1
        ∧ w1.trace = w.trace ++ es
        ∧ es.filter Event.isDrawCommand = ds.map (fun q => drawCommand q.mesh)
        ∧ (w1.stats (w.passes self).renderStats).drawCalls
            = (w.stats (w.passes self).renderStats).drawCalls + ds.length := by
  induction ds with
  | nil => intro w _; exact ⟨w, [], rfl, by simp, rfl, by simp⟩
  | cons d ds ih =>
    intro w hw
    obtain ⟨w1, es, h1, h2, h3, h4⟩ :=
      ih (drawResult w self d.mesh d.modelTransform d.material) hw
    refine ⟨w1, drawEvents (w.passes self) self d.mesh d.modelTransform d.material ++ es,
      ?_, ?_, ?_, ?_⟩
    · simp only [RenderPass.drawAll, draw_eq w self d.mesh d.modelTransform d.material hw, h1]
    · rw [h2, drawResult_trace, List.append_assoc]
    · rw [List.filter_append, drawEvents_drawCommands, h3]
      rfl
    · rw [drawResult_pass] at h4
      rw [h4, drawResult_stats]
      simp only [drawStats, List.length_cons]
      push_cast
      ring

/-- C12: on an active pass, any sequence `ds` of draws and the draw `d` that follows it all
succeed; the sequence raises `drawCalls` by its length and issues exactly one draw command
per request, in call order (its count being the index count as cast to `int`); and the events of the draw `d` are appended after those of the
sequence in the order: `drawCalls` increment, shader setup, material rebind (counter, slot,
bind) if the material differs from the cached one, mesh rebind (counter, slot, bind) if the
mesh differs from the cached one, draw command. -/
theorem draws_in_call_order (w : World) (self : Nat) (ds : List DrawRequest) (d : DrawRequest)
    (hactive : w.instance_ ≠ none) :
    ∃ w1 w2 setup, RenderPass.drawAll w self ds = Except.ok w1
      ∧ RenderPass.draw w1 self (some d.mesh) d.modelTransform d.material = Except.ok w2
      ∧ (w1.stats (w.passes self).renderStats).drawCalls
          = (w.stats (w.passes self).renderStats).drawCalls + ds.length
      ∧ (w1.eventsSince w).filter Event.isDrawCommand
          = ds.map (fun q =>
              if intOfSize q.mesh.getIndices.length = 0 then
                Event.glDrawArrays q.mesh.getMeshTopology 0 q.mesh.getVertexCount
              else
                Event.glDrawElements q.mesh.getMeshTopology
                  (intOfSize q.mesh.getIndices.length) IndexType.GL_UNSIGNED_SHORT 0)
      ∧ w1.trace = w.trace ++ w1.eventsSince w
      ∧ w2.trace = w1.trace ++
          ([Event.incDrawCalls (w1.passes self).renderStats]
            ++ setup
            ++ (if (w1.passes self).lastBoundMaterial = some d.material.id then [] else
                [Event.incStateChangesMaterial (w1.passes self).renderStats,
                  Event.setLastBoundMaterial self d.material.id,
                  Event.materialBind d.material.id])
            ++ (if (w1.passes self).lastBoundMesh = some d.mesh.id then [] else
                [Event.incStateChangesMesh (w1.passes self).renderStats,
                  Event.setLastBoundMesh self d.mesh.id,
                  Event.meshBind d.mesh.id d.material.getShader.id])
            ++ [if intOfSize d.mesh.getIndices.length = 0 then
                Event.glDrawArrays d.mesh.getMeshTopology 0 d.mesh.getVertexCount
              else
                Event.glDrawElements d.mesh.getMeshTopology
                  (intOfSize d.mesh.getIndices.length) IndexType.GL_UNSIGNED_SHORT 0])
      ∧ (∀ e ∈ setup, e.isShaderSetup = true)
      ∧ (w2.stats (w1.passes self).renderStats).drawCalls
          = (w1.stats (w1.passes self).renderStats).drawCalls + 1 := by
  have hcmd : ∀ m : Mesh, (if intOfSize m.getIndices.length = 0 then
        Event.glDrawArrays m.getMeshTopology 0 m.getVertexCount
      else
        Event.glDrawElements m.getMeshTopology (intOfSize m.getIndices.length)
          IndexType.GL_UNSIGNED_SHORT 0) = drawCommand m := by
    intro m
    rfl
  obtain ⟨w1, es, h1, h2, h3, h4⟩ := drawAll_trace self ds w hactive
  obtain ⟨w1', h1', hinst, _⟩ := drawAll_ok self ds w hactive
  have hw : w1' = w1 := by
    rw [h1] at h1'
    injection h1' with h
    exact h.symm
  subst hw
  have hactive1 : w1'.instance_ ≠ none := by rw [hinst]; exact hactive
  refine ⟨w1', drawResult w1' self d.mesh d.modelTransform d.material,
    setupShaderEvents (w1'.passes self) self d.modelTransform d.material.shader, h1,
    draw_eq w1' self d.mesh d.modelTransform d.material hactive1, h4, ?_, ?_, ?_, ?_, ?_⟩
  · rw [eventsSince_append w1' w es h2, h3]
    simp only [hcmd]
  · rw [eventsSince_append w1' w es h2, h2]
  · rw [drawResult_trace, hcmd]
    rfl
  · exact setupShaderEvents_kind _ _ _ _
  · rw [drawResult_stats]
    rfl

/-- C12 at a concrete input: two draws, then a third, on the active pass at address 1. -/
theorem draws_in_call_order_witness :
    (activeWorld false).instance_ ≠ none
    ∧ ∃ w1 w2, RenderPass.drawAll (activeWorld false) 1
          [⟨sampleTriangle 20, 1, sampleMaterial 10 30⟩,
           ⟨sampleQuad 21, 1, sampleMaterial 10 30⟩] = Except.ok w1
      ∧ RenderPass.draw w1 1 (some (sampleQuad 21)) 1 (sampleMaterial 11 30) = Except.ok w2
      ∧ (w1.stats 0).drawCalls = ((activeWorld false).stats 0).drawCalls + 2
      ∧ (w1.eventsSince (activeWorld false)).filter Event.isDrawCommand
          = [Event.glDrawArrays 4 0 3,
             Event.glDrawElements 4 6 IndexType.GL_UNSIGNED_SHORT 0] := by
  refine ⟨by simp [activeWorld], ?_⟩
  obtain ⟨w1, w2, _, h1, h2, h3, h4, _⟩ := draws_in_call_order (activeWorld false) 1
    [⟨sampleTriangle 20, 1, sampleMaterial 10 30⟩, ⟨sampleQuad 21, 1, sampleMaterial 10 30⟩]
    ⟨sampleQuad 21, 1, sampleMaterial 11 30⟩ (by simp [activeWorld])
  exact ⟨w1, w2, h1, h2, h3, h4⟩

/-! ## C13: `finish` on a pass that is not the active one -/

/-- C13: while the pass `B` is active, `finish` on a different pass object `A` succeeds,
emits `ImGui::Render` according to the gui flag of `A` and unsets `instance`; afterwards no
pass is active, so `draw` and `finish` on `B` fail although `finish` was never called on
`B`. -/
theorem finish_on_other_pass (w : World) (A B : Nat) (mesh : Mesh) (M : mat4)
    (material : Material) (hB : w.instance_ = some B) (hdifferent : A ≠ B) :
    ∃ w1, RenderPass.finish w A = Except.ok w1
      ∧ w1.instance_ = none
      ∧ w1.eventsSince w
          = (if (w.passes A).gui then [Event.ImGui_Render] else []) ++ [Event.setInstance none]
      ∧ w1.passes B = w.passes B
      ∧ RenderPass.draw w1 B (some mesh) M material = Except.error w1
      ∧ RenderPass.finish w1 B = Except.error w1 := by
  have hactive : w.instance_ ≠ none := by simp [hB]
  have _ := hdifferent
  refine ⟨_, finish_eq w A hactive, rfl, eventsSince_append _ w _ rfl, rfl, ?_,
    finish_error _ B rfl⟩
  simp [RenderPass.draw]

/-- C13 at a concrete input: the pass at address 2 (no gui) is active, the finished gui pass
at address 1 receives `finish`, and `ImGui::Render` is emitted. -/
theorem finish_on_other_pass_witness :
    twoPassWorld.instance_ = some 2 ∧ (1 : Nat) ≠ 2
    ∧ (twoPassWorld.passes 1).gui = true ∧ (twoPassWorld.passes 2).gui = false
    ∧ ∃ w1, RenderPass.finish twoPassWorld 1 = Except.ok w1
      ∧ w1.instance_ = none
      ∧ w1.eventsSince twoPassWorld = [Event.ImGui_Render, Event.setInstance none]
      ∧ RenderPass.finish w1 2 = Except.error w1 := by
  have hgui : (twoPassWorld.passes 1).gui = true := by
    simp [twoPassWorld, constructResult, activeWorld, idleWorld, RenderPass.init]
  refine ⟨rfl, by decide, hgui, by simp [twoPassWorld, constructResult, RenderPass.init], ?_⟩
  obtain ⟨w1, h1, h2, h3, _, _, h6⟩ := finish_on_other_pass twoPassWorld 1 2 (sampleQuad 21) 1
    (sampleMaterial 10 30) rfl (by decide)
  refine ⟨w1, h1, h2, ?_, h6⟩
  rw [h3, hgui]
  rfl

/-! ## C14: the mesh is bound against the shader of the draw that changes the mesh -/

/-- C14: two consecutive draws of the same mesh on an active pass, with two different
materials whose shaders differ, both succeed; the binds of the second draw are the bind of
its shader and the bind of its material, with no mesh bind; and the mesh binds of the two
draws together are the single bind against the shader of the first draw, made by the
first draw when the mesh was not already the cached one. -/
theorem mesh_bound_against_first_shader_only (w : World) (self : Nat) (mesh : Mesh)
    (M1 M2 : mat4) (mat1 mat2 : Material) (hactive : w.instance_ ≠ none)
    (hmaterial : mat1.id ≠ mat2.id) (hshader : mat1.getShader.id ≠ mat2.getShader.id) :
    ∃ w1 w2, RenderPass.draw w self (some mesh) M1 mat1 = Except.ok w1
      ∧ RenderPass.draw w1 self (some mesh) M2 mat2 = Except.ok w2
      ∧ (w2.eventsSince w1).filter Event.isBind
          = [Event.shaderBind mat2.getShader.id, Event.materialBind mat2.id]
      ∧ (w2.eventsSince w).filter Event.isMeshBind
          = (if (w.passes self).lastBoundMesh = some mesh.id then []
              else [Event.meshBind mesh.id mat1.getShader.id]) := by
  have hbind : ∀ (p : RenderPass) (M : mat4) (mat : Material),
      (drawEvents p self mesh M mat).filter Event.isBind
        = (if p.lastBoundShader = some mat.shader.id then [] else [Event.shaderBind mat.shader.id])
          ++ (if p.lastBoundMaterial = some mat.id then [] else [Event.materialBind mat.id])
          ++ (if p.lastBoundMesh = some mesh.id then []
              else [Event.meshBind mesh.id mat.shader.id]) := by
    intro p M mat
    have hs : (setupShaderEvents p self M mat.shader).filter Event.isBind
        = if p.lastBoundShader = some mat.shader.id then []
          else [Event.shaderBind mat.shader.id] := by
      unfold setupShaderEvents
      split_ifs <;> simp [List.filter_cons, Event.isBind]
    unfold drawEvents drawCommand
    simp only [List.filter_append, hs]
    split_ifs <;> simp [List.filter_cons, Event.isBind]
  have hmeshBind : ∀ (p : RenderPass) (M : mat4) (mat : Material),
      (drawEvents p self mesh M mat).filter Event.isMeshBind
        = (if p.lastBoundMesh = some mesh.id then []
            else [Event.meshBind mesh.id mat.shader.id]) := by
    intro p M mat
    have hs := setupShaderEvents_filter Event.isMeshBind
      (by intro e; cases e <;> simp [Event.isShaderSetup, Event.isMeshBind]) p self M mat.shader
    unfold drawEvents drawCommand
    simp only [List.filter_append, hs]
    split_ifs <;> simp [List.filter_cons, Event.isMeshBind]
  have hactive1 : (drawResult w self mesh M1 mat1).instance_ ≠ none := hactive
  refine ⟨_, _, draw_eq w self mesh M1 mat1 hactive,
    draw_eq (drawResult w self mesh M1 mat1) self mesh M2 mat2 hactive1, ?_, ?_⟩
  · rw [eventsSince_append _ _ _ (drawResult_trace (drawResult w self mesh M1 mat1) self mesh
      M2 mat2), hbind, drawResult_pass]
    have h1 : ¬ (some mat1.shader.id = some mat2.shader.id) := by
      intro h
      injection h with h
      exact hshader h
    have h2 : ¬ (some mat1.id = some mat2.id) := by
      intro h
      injection h with h
      exact hmaterial h
    simp [h1, h2, Material.getShader]
  · rw [eventsSince_append _ w
      (drawEvents (w.passes self) self mesh M1 mat1
        ++ drawEvents ((drawResult w self mesh M1 mat1).passes self) self mesh M2 mat2)
      (by rw [drawResult_trace, drawResult_trace, List.append_assoc]),
      List.filter_append, hmeshBind, hmeshBind, drawResult_pass]
    simp [Material.getShader]

/-- C14 at a concrete input: a quad drawn with material 10 (shader 30) and then with
material 11 (shader 31) on a fresh pass. -/
theorem mesh_bound_against_first_shader_only_witness :
    (activeWorld false).instance_ ≠ none ∧ (10 : Nat) ≠ 11 ∧ (30 : Nat) ≠ 31
    ∧ ∃ w1 w2,
      RenderPass.draw (activeWorld false) 1 (some (sampleQuad 21)) 1 (sampleMaterial 10 30)
        = Except.ok w1
      ∧ RenderPass.draw w1 1 (some (sampleQuad 21)) 1 (sampleMaterial 11 31) = Except.ok w2
      ∧ (w2.eventsSince w1).filter Event.isBind = [Event.shaderBind 31, Event.materialBind 11]
      ∧ (w2.eventsSince (activeWorld false)).filter Event.isMeshBind = [Event.meshBind 21 30] :=
  ⟨by simp [activeWorld], by decide, by decide,
    mesh_bound_against_first_shader_only (activeWorld false) 1 (sampleQuad 21) 1 1
      (sampleMaterial 10 30) (sampleMaterial 11 31) (by simp [activeWorld]) (by decide)
      (by decide)⟩

/-! ## C15: the topology of the shared line mesh -/

theorem drawResult_linesMesh (w : World) (self : Nat) (mesh : Mesh) (M : mat4) (mat : Material) :
    (drawResult w self mesh M mat).linesMesh = w.linesMesh
    ∧ (drawResult w self mesh M mat).linesMaterial = w.linesMaterial := ⟨rfl, rfl⟩

/-- Once the shared mesh exists, `drawLines` calls keep its topology and its empty index
list, whatever topology they are passed. -/
theorem drawLinesAll_topology (self : Nat) (t : MeshTopology) (reqs : List LinesRequest) :
    ∀ w : World, w.instance_ ≠ none →
      (∃ m, w.linesMesh = some m ∧ m.meshTopology = t ∧ m.indices = []) →
      ∃ w1, RenderPass.drawLinesAll w self reqs = Except.ok w1
        ∧ w1.instance_ = w.instance_
        ∧ ∃ m, w1.linesMesh = some m ∧ m.meshTopology = t ∧ m.indices = [] := by
  induction reqs with
  | nil => intro w _ h; exact ⟨w, rfl, rfl, h⟩
  | cons d ds ih =>
    intro w hw hmesh
    obtain ⟨m, hm, ht, hidx⟩ := hmesh
    obtain ⟨w1, h1, h2, h3⟩ := ih
      (drawResult
        { w with
          linesMaterial := some (linesMaterialNow w d.color),
          linesMesh := some (linesMeshNow w d.verts d.meshTopology) }
        self (linesMeshNow w d.verts d.meshTopology) mat4One (linesMaterialNow w d.color))
      hw ⟨linesMeshNow w d.verts d.meshTopology, rfl,
        by simp [linesMeshNow, hm, Mesh.updatePositions, ht],
        by simp [linesMeshNow, hm, Mesh.updatePositions, hidx]⟩
    refine ⟨w1, ?_, ?_, h3⟩
    · simp only [RenderPass.drawLinesAll, drawLines_eq w self d.verts d.color d.meshTopology hw,
        h1]
    · rw [h2]; rfl

/-- The state of the shared mesh after a sequence of `drawLines` calls that starts before
the shared mesh exists: it has the topology of the first call. -/
theorem drawLinesAll_first_topology (self : Nat) (w : World) (reqs : List LinesRequest)
    (hactive : w.instance_ ≠ none) (hmesh : w.linesMesh = none) :
    ∃ w1, RenderPass.drawLinesAll w self reqs = Except.ok w1
      ∧ w1.instance_ = w.instance_
      ∧ match reqs with
        | [] => w1.linesMesh = none
        | first :: _ =>
          ∃ m, w1.linesMesh = some m ∧ m.meshTopology = first.meshTopology ∧ m.indices = [] := by
  cases reqs with
  | nil => exact ⟨w, rfl, rfl, hmesh⟩
  | cons d ds =>
    obtain ⟨w1, h1, h2, h3⟩ := drawLinesAll_topology self d.meshTopology ds
      (drawResult
        { w with
          linesMaterial := some (linesMaterialNow w d.color),
          linesMesh := some (linesMeshNow w d.verts d.meshTopology) }
        self (linesMeshNow w d.verts d.meshTopology) mat4One (linesMaterialNow w d.color))
      hactive ⟨linesMeshNow w d.verts d.meshTopology, rfl,
        by simp [linesMeshNow, hmesh, Mesh.updatePositions, Mesh.create],
        by simp [linesMeshNow, hmesh, Mesh.updatePositions, Mesh.create]⟩
    refine ⟨w1, ?_, ?_, h3⟩
    · simp only [RenderPass.drawLinesAll,
        drawLines_eq w self d.verts d.color d.meshTopology hactive, h1]
    · rw [h2]; rfl

/-- C15: in a process whose shared line mesh does not exist yet, after any sequence `pre`
of `drawLines` calls on an active pass the next call `d` succeeds and is one `draw` of the
shared mesh with the shared material and the identity model transform, where the mesh
holds the vertices of `d` and the material the color of `d`, but the topology of the mesh,
and of the one draw command the call issues, is the topology passed to the first call of
the sequence (that of `d` itself only when `d` is the first call). -/
theorem drawLines_keeps_first_topology (w : World) (self : Nat) (pre : List LinesRequest)
    (d : LinesRequest) (hactive : w.instance_ ≠ none) (hmesh : w.linesMesh = none) :
    ∃ w1 w2 mesh material, RenderPass.drawLinesAll w self pre = Except.ok w1
      ∧ RenderPass.drawLines w1 self d.verts d.color d.meshTopology = Except.ok w2
      ∧ RenderPass.drawLines w1 self d.verts d.color d.meshTopology
          = RenderPass.draw { w1 with linesMaterial := some material, linesMesh := some mesh }
              self (some mesh) mat4One material
      ∧ w2.linesMesh = some mesh
      ∧ w2.linesMaterial = some material
      ∧ mesh.vertexPositions = d.verts
      ∧ material.color = d.color
      ∧ mesh.meshTopology = ((pre ++ [d]).head?.getD d).meshTopology
      ∧ (w2.eventsSince w1).filter Event.isDrawCommand
          = [Event.glDrawArrays ((pre ++ [d]).head?.getD d).meshTopology 0 d.verts.length] := by
  obtain ⟨w1, h1, h2, h3⟩ := drawLinesAll_first_topology self w pre hactive hmesh
  have hactive1 : w1.instance_ ≠ none := by rw [h2]; exact hactive
  have htopo : (linesMeshNow w1 d.verts d.meshTopology).meshTopology
        = ((pre ++ [d]).head?.getD d).meshTopology
      ∧ (linesMeshNow w1 d.verts d.meshTopology).indices = [] := by
    cases pre with
    | nil =>
      have h3' : w1.linesMesh = none := h3
      simp [linesMeshNow, h3', Mesh.updatePositions, Mesh.create]
    | cons first rest =>
      obtain ⟨m, hm, ht, hidx⟩ := h3
      simp [linesMeshNow, hm, Mesh.updatePositions, ht, hidx]
  have hdraw := drawLines_eq w1 self d.verts d.color d.meshTopology hactive1
  refine ⟨w1, _, linesMeshNow w1 d.verts d.meshTopology, linesMaterialNow w1 d.color, h1, hdraw,
    ?_, rfl, rfl, ?_, ?_, htopo.1, ?_⟩
  · rw [hdraw, draw_eq _ _ _ _ _ (by exact hactive1)]
  · simp [linesMeshNow, Mesh.updatePositions]
  · simp [linesMaterialNow, Material.setColor]
  · rw [eventsSince_append _ w1
        (drawEvents (w1.passes self) self (linesMeshNow w1 d.verts d.meshTopology) mat4One
          (linesMaterialNow w1 d.color)) rfl,
      drawEvents_drawCommands, drawCommand, htopo.2, htopo.1]
    simp [linesMeshNow, Mesh.updatePositions, intOfSize]

/-- C15 at a concrete input: a first call with topology 1 (lines), a second call with
topology 3 (line strip), and the draw of the second call still uses topology 1. -/
theorem drawLines_keeps_first_topology_witness :
    (activeWorld false).instance_ ≠ none ∧ (activeWorld false).linesMesh = none
    ∧ ∃ w1 w2, RenderPass.drawLinesAll (activeWorld false) 1
          [⟨[⟨0, 0, 0⟩, ⟨1, 0, 0⟩], ⟨1, 0, 0, 1⟩, 1⟩] = Except.ok w1
      ∧ RenderPass.drawLines w1 1 [⟨0, 0, 0⟩, ⟨0, 1, 0⟩, ⟨0, 0, 1⟩] ⟨0, 1, 0, 1⟩ 3
          = Except.ok w2
      ∧ (w2.eventsSince w1).filter Event.isDrawCommand = [Event.glDrawArrays 1 0 3] := by
  refine ⟨by simp [activeWorld], rfl, ?_⟩
  obtain ⟨w1, w2, _, _, h1, h2, _, _, _, _, _, _, h9⟩ := drawLines_keeps_first_topology
    (activeWorld false) 1 [⟨[⟨0, 0, 0⟩, ⟨1, 0, 0⟩], ⟨1, 0, 0, 1⟩, 1⟩]
    ⟨[⟨0, 0, 0⟩, ⟨0, 1, 0⟩, ⟨0, 0, 1⟩], ⟨0, 1, 0, 1⟩, 3⟩ (by simp [activeWorld]) rfl
  exact ⟨w1, w2, h1, h2, h9⟩

end sre
